import Mathlib

/-!
Verification development for the OpenPGP packet dump engine
(`src/librepgp/stream-dump.cpp`).

The development shallowly embeds the packet-walking and per-packet dump
logic of `stream-dump.cpp`.  The byte-level collaborators (the streaming
byte source, packet header peeking, armor/decompression transforms and
the field parsers `pgp_signature_t::parse`, `pgp_key_pkt_t::parse`, ...)
live outside the given sources; following the specification they are
treated as external: an input stream is modelled as the sequence of
packets the external parsers deliver, each packet carrying its header
and the result of parsing its body.  Rendering back-ends (indented text
/ JSON serialization) are out of scope per the specification; the
output of the dump is modelled as the ordered sequence of decoded
fields (`DField`) each path emits, which both back-ends serialize
mechanically.

Numeric tag / algorithm code values are the OpenPGP wire values used by
the enums referenced in `stream-dump.cpp`.
-/

/-- `rnp_result_t`: 0 is success, nonzero values are errors.  The exact
nonzero values come from headers outside the sources; only
success-vs-failure and propagation of the code are observable here. -/
def RNP_SUCCESS : Nat := 0

/-- Generic error code (nonzero). -/
def RNP_ERROR_GENERIC : Nat := 1

/-- Bad format error code (nonzero). -/
def RNP_ERROR_BAD_FORMAT : Nat := 2

/-- Not-enough-data error code (nonzero). -/
def RNP_ERROR_NOT_ENOUGH_DATA : Nat := 3

/-- Read error code (nonzero). -/
def RNP_ERROR_READ : Nat := 4

/-- Out-of-memory error code (nonzero). -/
def RNP_ERROR_OUT_OF_MEMORY : Nat := 5

/-- Modelled from the spec: the three resource-exhaustion bounds
`MAXIMUM_NESTING_LEVEL`, `MAXIMUM_STREAM_PKTS`, `MAXIMUM_ERROR_PKTS`
are macros from `stream-def.h`, which is not among the sources; the
spec leaves their values unspecified ("small, attack-resistant
constants").  The embedding is therefore parametric in them. -/
structure Limits where
  MAXIMUM_NESTING_LEVEL : Nat
  MAXIMUM_STREAM_PKTS : Nat
  MAXIMUM_ERROR_PKTS : Nat
deriving Repr, DecidableEq

/-- `rnp_dump_ctx_t`: the per-invocation dump context.  Three verbosity
booleans plus three mutable counters, threaded by reference through the
recursive walk. -/
structure rnp_dump_ctx_t where
  dump_mpi : Bool
  dump_packets : Bool
  dump_grips : Bool
  layers : Nat
  stream_pkts : Nat
  failures : Nat
deriving Repr, DecidableEq

/-- `pgp_mpi_t`: a multi-precision integer as stored in packets — raw
bytes plus their count. -/
structure pgp_mpi_t where
  mpi : List Nat
  len : Nat
deriving Repr, DecidableEq

/-- Modelled from the spec: `mpi_bits` is an external pure helper (not
in the sources) returning the bit length of an MPI: eight bits per byte
less the leading zero bits of the first byte. -/
def mpi_bits (m : pgp_mpi_t) : Nat :=
  match m.mpi with
  | [] => 0
  | b :: _ => 8 * (m.len - 1) + (if b = 0 then 0 else Nat.log2 b + 1)

/-- One decoded field of the structured dump output.  Both rendering
back-ends serialize this record stream mechanically (text with
indentation, JSON with nesting); nested JSON objects are represented by
dotted field names. -/
inductive DField where
  /-- a title or diagnostic line carrying no decoded value -/
  | note (s : String)
  /-- the per-packet header echo: offset, raw header bytes, tag and the
  length description -/
  | header (off : Nat) (raw : List Nat) (tag : Nat) (lenMsg : String)
  /-- raw packet contents preview (`dump_packets` verbosity) -/
  | rawpkt (off : Nat) (bytes : List Nat)
  | fnum (name : String) (v : Nat)
  | fstr (name : String) (v : String)
  | fbool (name : String) (v : Bool)
  | fhex (name : String) (v : List Nat)
  /-- the `%s: %d (%s)` pattern / JSON `name` + `name.str` pair -/
  | intstr (name : String) (v : Nat) (label : String)
  /-- preferred-algorithm lists: labels and numeric codes -/
  | falgs (name : String) (algs : List Nat) (labels : List String)
  /-- an MPI field: bit count, and raw bytes when `dump_mpi` is set -/
  | fmpi (name : String) (bits : Nat) (raw : Option (List Nat))
deriving Repr, DecidableEq

/-- Modelled from the spec: `id_str_pair::lookup` (defined in
`types.h`, outside the sources).  Walks the table until the NULL
sentinel; returns the label of the first entry whose id matches, or the
`notfound` default.  Pure and total. -/
def id_str_lookup : List (Nat × String) → Nat → String → String
  | [], _, notfound => notfound
  | (i, s) :: rest, id, notfound =>
      if i = id then s else id_str_lookup rest id notfound

/-- `packet_tag_map`: packet tag codes to labels (the `{0, NULL}`
sentinel terminates the C array and is represented by the list end).
Tag values are the OpenPGP wire values of the `PGP_PKT_*` enum. -/
def packet_tag_map : List (Nat × String) :=
  [(0, "Reserved"),
   (1, "Public-Key Encrypted Session Key"),
   (2, "Signature"),
   (3, "Symmetric-Key Encrypted Session Key"),
   (4, "One-Pass Signature"),
   (5, "Secret Key"),
   (6, "Public Key"),
   (7, "Secret Subkey"),
   (8, "Compressed Data"),
   (9, "Symmetrically Encrypted Data"),
   (10, "Marker"),
   (11, "Literal Data"),
   (12, "Trust"),
   (13, "User ID"),
   (14, "Public Subkey"),
   (15, "reserved2"),
   (16, "reserved3"),
   (17, "User Attribute"),
   (18, "Symmetric Encrypted and Integrity Protected Data"),
   (19, "Modification Detection Code"),
   (20, "AEAD Encrypted Data Packet")]

/-- `sig_type_map`: signature type codes to labels. -/
def sig_type_map : List (Nat × String) :=
  [(0x00, "Signature of a binary document"),
   (0x01, "Signature of a canonical text document"),
   (0x02, "Standalone signature"),
   (0x10, "Generic User ID certification"),
   (0x11, "Personal User ID certification"),
   (0x12, "Casual User ID certification"),
   (0x13, "Positive User ID certification"),
   (0x18, "Subkey Binding Signature"),
   (0x19, "Primary Key Binding Signature"),
   (0x1f, "Direct-key signature"),
   (0x20, "Key revocation signature"),
   (0x28, "Subkey revocation signature"),
   (0x30, "Certification revocation signature"),
   (0x40, "Timestamp signature"),
   (0x50, "Third-Party Confirmation signature")]

/-- `sig_subpkt_type_map`: signature subpacket type codes to labels.
(The C label for type 28 contains an apostrophe, written out here as
`signers user ID`.) -/
def sig_subpkt_type_map : List (Nat × String) :=
  [(2, "signature creation time"),
   (3, "signature expiration time"),
   (4, "exportable certification"),
   (5, "trust signature"),
   (6, "regular expression"),
   (7, "revocable"),
   (9, "key expiration time"),
   (11, "preferred symmetric algorithms"),
   (12, "revocation key"),
   (16, "issuer key ID"),
   (20, "notation data"),
   (21, "preferred hash algorithms"),
   (22, "preferred compression algorithms"),
   (23, "key server preferences"),
   (24, "preferred key server"),
   (25, "primary user ID"),
   (26, "policy URI"),
   (27, "key flags"),
   (28, "signers user ID"),
   (29, "reason for revocation"),
   (30, "features"),
   (31, "signature target"),
   (32, "embedded signature"),
   (33, "issuer fingerprint"),
   (34, "preferred AEAD algorithms")]

/-- `key_type_map`: key packet tags to labels. -/
def key_type_map : List (Nat × String) :=
  [(5, "Secret key"), (6, "Public key"),
   (7, "Secret subkey"), (14, "Public subkey")]

/-- `pubkey_alg_map`: public-key algorithm codes to labels (base build,
without the crypto-refresh / post-quantum entries which are behind
disabled compile guards). -/
def pubkey_alg_map : List (Nat × String) :=
  [(1, "RSA (Encrypt or Sign)"),
   (2, "RSA (Encrypt-Only)"),
   (3, "RSA (Sign-Only)"),
   (16, "Elgamal (Encrypt-Only)"),
   (17, "DSA"),
   (18, "ECDH"),
   (19, "ECDSA"),
   (20, "Elgamal"),
   (21, "Reserved for DH (X9.42)"),
   (22, "EdDSA"),
   (99, "SM2")]

/-- `symm_alg_map`: symmetric algorithm codes to labels. -/
def symm_alg_map : List (Nat × String) :=
  [(0, "Plaintext"), (1, "IDEA"), (2, "TripleDES"), (3, "CAST5"),
   (4, "Blowfish"), (7, "AES-128"), (8, "AES-192"), (9, "AES-256"),
   (10, "Twofish"), (11, "Camellia-128"), (12, "Camellia-192"),
   (13, "Camellia-256"), (105, "SM4")]

/-- `hash_alg_map`: hash algorithm codes to labels. -/
def hash_alg_map : List (Nat × String) :=
  [(1, "MD5"), (2, "SHA1"), (3, "RIPEMD160"), (8, "SHA256"),
   (9, "SHA384"), (10, "SHA512"), (11, "SHA224"), (105, "SM3"),
   (12, "SHA3-256"), (14, "SHA3-512")]

/-- `z_alg_map`: compression algorithm codes to labels. -/
def z_alg_map : List (Nat × String) :=
  [(0, "Uncompressed"), (1, "ZIP"), (2, "ZLib"), (3, "BZip2")]

/-- `aead_alg_map`: AEAD algorithm codes to labels. -/
def aead_alg_map : List (Nat × String) :=
  [(0, "None"), (1, "EAX"), (2, "OCB")]

/-- `revoc_reason_map`: revocation reason codes to labels. -/
def revoc_reason_map : List (Nat × String) :=
  [(0, "No reason"), (1, "Superseded"), (2, "Compromised"),
   (3, "Retired"), (32, "No longer valid")]

/-- `dst_print_palg`: public-key algorithm field. -/
def dst_print_palg (name : Option String) (palg : Nat) : DField :=
  DField.intstr (name.getD "public key algorithm") palg
    (id_str_lookup pubkey_alg_map palg "Unknown")

/-- `dst_print_halg`: hash algorithm field. -/
def dst_print_halg (name : Option String) (halg : Nat) : DField :=
  DField.intstr (name.getD "hash algorithm") halg
    (id_str_lookup hash_alg_map halg "Unknown")

/-- `dst_print_salg`: symmetric algorithm field. -/
def dst_print_salg (name : Option String) (salg : Nat) : DField :=
  DField.intstr (name.getD "symmetric algorithm") salg
    (id_str_lookup symm_alg_map salg "Unknown")

/-- `dst_print_aalg`: AEAD algorithm field. -/
def dst_print_aalg (name : Option String) (aalg : Nat) : DField :=
  DField.intstr (name.getD "aead algorithm") aalg
    (id_str_lookup aead_alg_map aalg "Unknown")

/-- `dst_print_zalg`: compression algorithm field. -/
def dst_print_zalg (name : Option String) (zalg : Nat) : DField :=
  DField.intstr (name.getD "compression algorithm") zalg
    (id_str_lookup z_alg_map zalg "Unknown")

/-- `dst_print_sig_type`: signature type field. -/
def dst_print_sig_type (name : Option String) (t : Nat) : DField :=
  DField.intstr (name.getD "signature type") t
    (id_str_lookup sig_type_map t "Unknown")

/-- `dst_print_algs`: an algorithm preference list with its labels. -/
def dst_print_algs (name : Option String) (algs : List Nat)
    (map : List (Nat × String)) : DField :=
  DField.falgs (name.getD "algorithms") algs
    (algs.map (fun a => id_str_lookup map a "Unknown"))

/-- `dst_print_mpi`: bit count, plus the raw bytes when `dumpbin`. -/
def dst_print_mpi (name : String) (m : pgp_mpi_t) (dumpbin : Bool) : DField :=
  DField.fmpi name (mpi_bits m) (if dumpbin then some m.mpi else none)

/-- `dst_print_time`: timestamps are reported numerically; the ctime
rendering is an external pure helper and part of the mechanical text
serialization. -/
def dst_print_time (name : Option String) (t : Nat) : DField :=
  DField.fnum (name.getD "time") t

/-- `dst_print_expiration`: the seconds value (the derived day count
and the `never` wording are mechanical rendering). -/
def dst_print_expiration (name : Option String) (seconds : Nat) : DField :=
  DField.fnum (name.getD "expiration") seconds

/-- `dst_print_keyid`: a key id as hex bytes. -/
def dst_print_keyid (name : Option String) (keyid : List Nat) : DField :=
  DField.fhex (name.getD "key id") keyid

/-- S2K specifier code `PGP_S2KS_SALTED`. -/
def PGP_S2KS_SALTED : Nat := 1

/-- S2K specifier code `PGP_S2KS_ITERATED_AND_SALTED`. -/
def PGP_S2KS_ITERATED_AND_SALTED : Nat := 3

/-- S2K specifier code `PGP_S2KS_EXPERIMENTAL`. -/
def PGP_S2KS_EXPERIMENTAL : Nat := 101

/-- GPG extension number `PGP_S2K_GPG_SMARTCARD`. -/
def PGP_S2K_GPG_SMARTCARD : Nat := 1002

/-- S2K usage `PGP_S2KU_ENCRYPTED_AND_HASHED`. -/
def PGP_S2KU_ENCRYPTED_AND_HASHED : Nat := 254

/-- S2K usage `PGP_S2KU_ENCRYPTED`. -/
def PGP_S2KU_ENCRYPTED : Nat := 255

/-- `pgp_s2k_t`: string-to-key specifier as carried in packets (the
`usage` byte is stored here as in the original structure). -/
structure pgp_s2k_t where
  usage : Nat
  specifier : Nat
  hash_alg : Nat
  salt : List Nat
  iterations : Nat
  gpg_ext_num : Nat
  gpg_serial_len : Nat
  gpg_serial : List Nat
  experimental : List Nat
deriving Repr, DecidableEq

/-- Modelled from the spec: `pgp_s2k_decode_iterations` (crypto/s2k,
outside the sources) expands the one-byte iteration code. -/
def pgp_s2k_decode_iterations (c : Nat) : Nat :=
  (16 + c % 16) <<< (c / 16 + 6)

/-- `dst_print_s2k`: the S2K specifier fields, mirroring the branch
structure on specifier / GPG extension. -/
def dst_print_s2k (s2k : pgp_s2k_t) : List DField :=
  [DField.fnum "s2k specifier" s2k.specifier] ++
  (if s2k.specifier = PGP_S2KS_EXPERIMENTAL && s2k.gpg_ext_num ≠ 0 then
     [DField.fnum "GPG extension num" s2k.gpg_ext_num] ++
     (if s2k.gpg_ext_num = PGP_S2K_GPG_SMARTCARD then
        [DField.fhex "card serial number"
          (s2k.gpg_serial.take (min s2k.gpg_serial_len 16))]
      else [])
   else if s2k.specifier = PGP_S2KS_EXPERIMENTAL then
     [DField.fhex "Unknown experimental s2k" s2k.experimental]
   else
     [dst_print_halg (some "s2k hash algorithm") s2k.hash_alg] ++
     (if s2k.specifier = PGP_S2KS_SALTED ||
         s2k.specifier = PGP_S2KS_ITERATED_AND_SALTED then
        [DField.fhex "s2k salt" s2k.salt]
      else []) ++
     (if s2k.specifier = PGP_S2KS_ITERATED_AND_SALTED then
        [DField.fnum "s2k iterations" (pgp_s2k_decode_iterations s2k.iterations)]
      else []))

/-- `obj_add_s2k_json`: JSON rendering of an S2K specifier; the nested
`s2k` object is represented with `s2k.`-prefixed field names. -/
def obj_add_s2k_json (s2k : pgp_s2k_t) : List DField :=
  [DField.fnum "s2k.specifier" s2k.specifier] ++
  (if s2k.specifier = PGP_S2KS_EXPERIMENTAL && s2k.gpg_ext_num ≠ 0 then
     [DField.fnum "s2k.gpg extension" s2k.gpg_ext_num] ++
     (if s2k.gpg_ext_num = PGP_S2K_GPG_SMARTCARD then
        [DField.fhex "s2k.card serial number"
          (s2k.gpg_serial.take (min s2k.gpg_serial_len 16))]
      else [])
   else if s2k.specifier = PGP_S2KS_EXPERIMENTAL then
     [DField.fhex "s2k.unknown experimental" s2k.experimental]
   else
     [DField.intstr "s2k.hash algorithm" s2k.hash_alg
        (id_str_lookup hash_alg_map s2k.hash_alg "Unknown")] ++
     (if s2k.specifier = PGP_S2KS_SALTED ||
         s2k.specifier = PGP_S2KS_ITERATED_AND_SALTED then
        [DField.fhex "s2k.salt" s2k.salt]
      else []) ++
     (if s2k.specifier = PGP_S2KS_ITERATED_AND_SALTED then
        [DField.fnum "s2k.iterations" (pgp_s2k_decode_iterations s2k.iterations)]
      else []))

/-- `pgp_signature_material_t`: the signature material union,
represented as the product of its members (the external
`parse_material` fills exactly the member selected by `palg`, and the
dump reads only that member). -/
structure pgp_signature_material_t where
  rsa_s : pgp_mpi_t
  dsa_r : pgp_mpi_t
  dsa_s : pgp_mpi_t
  ecc_r : pgp_mpi_t
  ecc_s : pgp_mpi_t
  eg_r : pgp_mpi_t
  eg_s : pgp_mpi_t
deriving Repr, DecidableEq

mutual
/-- `pgp_signature_t`: a parsed signature packet.  `material` and
`material_throw` model the external `parse_material` outcome; per the
spec an identifier outside the known set yields a stub, never a
failure, so `material_throw` only models a malformed material buffer
for a known algorithm (see `sig_material_throws`). -/
inductive pgp_signature_t where
  | mk (version : Nat) (sigType : Nat) (creation_time : Nat)
       (signer : List Nat) (palg : Nat) (halg : Nat)
       (subpkts : List pgp_sig_subpkt_t) (lbits : List Nat)
       (material : pgp_signature_material_t) (material_throw : Bool)

/-- `pgp_sig_subpkt_t`: one signature subpacket: type code, raw length,
hashed-area membership, critical flag, raw bytes and the decoded
type-specific payload. -/
inductive pgp_sig_subpkt_t where
  | mk (type : Nat) (len : Nat) (hashed : Bool) (critical : Bool)
       (data : List Nat) (fields : SubpktFields)

/-- The `fields` union of `pgp_sig_subpkt_t`, as the tagged sum the
spec prescribes; `unknownSp` carries no decoded payload (raw bytes live
in `data`). -/
inductive SubpktFields where
  | create (t : Nat)
  | expiry (t : Nat)
  | exportable (b : Bool)
  | trust (amount : Nat) (level : Nat)
  | regexp (s : String)
  | revocable (b : Bool)
  | preferred (arr : List Nat)
  | revocation_key (klass : Nat) (pkalg : Nat) (fp : List Nat)
  | issuer (keyid : List Nat)
  | notData (human : Bool) (name : String) (value : List Nat)
  | ks_prefs (no_modify : Bool)
  | preferred_ks (uri : String)
  | primary_uid (b : Bool)
  | policy (uri : String)
  | key_flags (flags : Nat)
  | signer (uid : String)
  | revocation_reason (code : Nat) (message : String)
  | features (flags : Nat)
  | sig (s : pgp_signature_t)
  | issuer_fp (fp : List Nat)
  | unknownSp
end

/-- Version field accessor for `pgp_signature_t`. -/
def pgp_signature_t.version : pgp_signature_t → Nat
  | .mk v _ _ _ _ _ _ _ _ _ => v

/-- Signature type accessor (the source's `sig->type()`). -/
def pgp_signature_t.sigType : pgp_signature_t → Nat
  | .mk _ t _ _ _ _ _ _ _ _ => t

/-- Creation time accessor. -/
def pgp_signature_t.creation_time : pgp_signature_t → Nat
  | .mk _ _ c _ _ _ _ _ _ _ => c

/-- v3 signer key id accessor. -/
def pgp_signature_t.signer : pgp_signature_t → List Nat
  | .mk _ _ _ s _ _ _ _ _ _ => s

/-- Public-key algorithm accessor. -/
def pgp_signature_t.palg : pgp_signature_t → Nat
  | .mk _ _ _ _ p _ _ _ _ _ => p

/-- Hash algorithm accessor. -/
def pgp_signature_t.halg : pgp_signature_t → Nat
  | .mk _ _ _ _ _ h _ _ _ _ => h

/-- Subpacket list accessor. -/
def pgp_signature_t.subpkts : pgp_signature_t → List pgp_sig_subpkt_t
  | .mk _ _ _ _ _ _ s _ _ _ => s

/-- Left 16 bits of hash accessor. -/
def pgp_signature_t.lbits : pgp_signature_t → List Nat
  | .mk _ _ _ _ _ _ _ l _ _ => l

/-- Parsed material accessor. -/
def pgp_signature_t.material : pgp_signature_t → pgp_signature_material_t
  | .mk _ _ _ _ _ _ _ _ m _ => m

/-- Whether the external `parse_material` would throw on this
signature's material buffer (known algorithms only, see
`sig_material_throws`). -/
def pgp_signature_t.material_throw : pgp_signature_t → Bool
  | .mk _ _ _ _ _ _ _ _ _ t => t

/-- Subpacket type accessor. -/
def pgp_sig_subpkt_t.type : pgp_sig_subpkt_t → Nat
  | .mk t _ _ _ _ _ => t

/-- Subpacket raw length accessor. -/
def pgp_sig_subpkt_t.len : pgp_sig_subpkt_t → Nat
  | .mk _ l _ _ _ _ => l

/-- Hashed-area membership accessor. -/
def pgp_sig_subpkt_t.hashed : pgp_sig_subpkt_t → Bool
  | .mk _ _ h _ _ _ => h

/-- Critical flag accessor. -/
def pgp_sig_subpkt_t.critical : pgp_sig_subpkt_t → Bool
  | .mk _ _ _ c _ _ => c

/-- Raw subpacket bytes accessor. -/
def pgp_sig_subpkt_t.data : pgp_sig_subpkt_t → List Nat
  | .mk _ _ _ _ d _ => d

/-- Decoded payload accessor. -/
def pgp_sig_subpkt_t.fields : pgp_sig_subpkt_t → SubpktFields
  | .mk _ _ _ _ _ f => f

/-- The public-key algorithms with a known signature-material shape in
the base build: RSA variants, DSA, EdDSA/ECDSA/SM2/ECDH, Elgamal
variants (`stream_dump_signature_pkt`'s non-default cases). -/
def known_sig_material_algs : List Nat := [1, 2, 3, 17, 22, 19, 99, 18, 16, 20]

/-- Modelled from the spec: whether `sig->parse_material` throws.  Per
the spec an algorithm identifier outside the known set yields an
"unknown algorithm" stub rather than a failure, so the throw flag is
only effective for known algorithms (a malformed material buffer). -/
def sig_material_throws (sig : pgp_signature_t) : Bool :=
  sig.material_throw && known_sig_material_algs.contains sig.palg

/-- `pgp_key_material_t`: the public-key material union as the product
of its members (the external `key.parse` fills exactly the member
selected by `alg`; the dump reads only that member). -/
structure pgp_key_material_t where
  rsa_n : pgp_mpi_t
  rsa_e : pgp_mpi_t
  dsa_p : pgp_mpi_t
  dsa_q : pgp_mpi_t
  dsa_g : pgp_mpi_t
  dsa_y : pgp_mpi_t
  eg_p : pgp_mpi_t
  eg_g : pgp_mpi_t
  eg_y : pgp_mpi_t
  ec_p : pgp_mpi_t
  ec_curve : Nat
  ec_kdf_hash_alg : Nat
  ec_key_wrap_alg : Nat
deriving Repr, DecidableEq

/-- `pgp_key_protection_t`: secret-key protection metadata. -/
structure pgp_key_protection_t where
  s2k : pgp_s2k_t
  symm_alg : Nat
  iv : List Nat
deriving Repr, DecidableEq

/-- `pgp_key_pkt_t`: a parsed key packet.  The trailing `Option`
fields carry the outcomes of the external derived-value collaborators
(`pgp_keyid`, `pgp_fingerprint`, `material.get_grip`): modelled from
the spec, these are deterministic external functions of the key record
whose results are reported only when computation succeeds. -/
structure pgp_key_pkt_t where
  tag : Nat
  version : Nat
  creation_time : Nat
  v3_days : Nat
  alg : Nat
  v5_pub_len : Nat
  material : pgp_key_material_t
  sec_protection : pgp_key_protection_t
  v5_s2k_len : Nat
  v5_sec_len : Nat
  sec_len : Nat
  keyid_res : Option (List Nat)
  fp_res : Option (List Nat)
  grip_res : Option (List Nat)
deriving Repr, DecidableEq

/-- `is_secret_key_pkt`: tags 5 (Secret Key) and 7 (Secret Subkey). -/
def is_secret_key_pkt (tag : Nat) : Bool := tag = 5 || tag = 7

/-- Modelled from the spec: `get_curve_desc` is an external pure lookup
from curve ids to descriptors; only the PGP name is consumed here. -/
def get_curve_desc (curve : Nat) : Option String :=
  match curve with
  | 1 => some "NIST P-256"
  | 2 => some "NIST P-384"
  | 3 => some "NIST P-521"
  | 4 => some "Ed25519"
  | 5 => some "Curve25519"
  | _ => none

/-- Modelled from the spec: `pgp_block_size` is an external pure table
from symmetric algorithms to cipher block sizes (0 for unknown). -/
def pgp_block_size (alg : Nat) : Nat :=
  if alg = 1 || alg = 2 || alg = 3 || alg = 4 then 8
  else if alg = 7 || alg = 8 || alg = 9 || alg = 10 ||
          alg = 11 || alg = 12 || alg = 13 || alg = 105 then 16
  else 0

/-- `pgp_userid_pkt_t`: a parsed user id / user attribute packet. -/
structure pgp_userid_pkt_t where
  tag : Nat
  uid : List Nat
  uid_len : Nat
deriving Repr, DecidableEq

/-- `pgp_pk_sesskey_t`: a parsed public-key encrypted session key
packet. -/
structure pgp_pk_sesskey_t where
  version : Nat
  key_id : List Nat
  alg : Nat
deriving Repr, DecidableEq

/-- `pgp_encrypted_material_t`: the encrypted-material union as the
product of its members. -/
structure pgp_encrypted_material_t where
  rsa_m : pgp_mpi_t
  eg_g : pgp_mpi_t
  eg_m : pgp_mpi_t
  sm2_m : pgp_mpi_t
  ecdh_p : pgp_mpi_t
  ecdh_m : List Nat
  ecdh_mlen : Nat
deriving Repr, DecidableEq

/-- `pgp_sk_sesskey_t`: a parsed symmetric-key encrypted session key
packet. -/
structure pgp_sk_sesskey_t where
  version : Nat
  alg : Nat
  aalg : Nat
  s2k : pgp_s2k_t
  iv : List Nat
  ivlen : Nat
  enckey : List Nat
  enckeylen : Nat
deriving Repr, DecidableEq

/-- `PGP_SKSK_V5`: version 5 of the SKESK packet. -/
def PGP_SKSK_V5 : Nat := 5

/-- `pgp_one_pass_sig_t`: a parsed one-pass signature packet. -/
structure pgp_one_pass_sig_t where
  version : Nat
  type : Nat
  halg : Nat
  palg : Nat
  keyid : List Nat
  nested : Bool
deriving Repr, DecidableEq

/-- `pgp_aead_hdr_t`: the AEAD-encrypted packet header. -/
structure pgp_aead_hdr_t where
  version : Nat
  ealg : Nat
  aalg : Nat
  csize : Nat
  iv : List Nat
  ivlen : Nat
deriving Repr, DecidableEq

/-- The literal-data header (`get_literal_src_hdr`) together with the
outcome of draining the literal source: `readb` is the body byte count
reached and `read_ok` whether every read succeeded. -/
structure lit_dump_t where
  format : Nat
  fname : String
  fname_len : Nat
  timestamp : Nat
  readb : Nat
  read_ok : Bool
deriving Repr, DecidableEq

/-- `pgp_packet_hdr_t`: a peeked packet header.  `isPart` is the
partial-length flag (named `partial` in the C structure). -/
structure pgp_packet_hdr_t where
  tag : Nat
  hdr : List Nat
  hdr_len : Nat
  pkt_len : Nat
  isPart : Bool
  indeterminate : Bool
deriving Repr, DecidableEq

mutual
/-- One packet of the input stream as delivered by the external byte
source and parsers: its byte offset, its peeked header, and its body
parse outcome. -/
inductive pgp_packet_t where
  | mk (off : Nat) (hdr : pgp_packet_hdr_t) (rawBody : List Nat) (body : PktBody)

/-- The body parse outcome per dispatched packet class.  `none` models
the external parser failing (throwing or returning nonzero) for that
packet; for compressed packets `zipB` carries the negotiated algorithm
and the packet sequence of the decompressed stream, and `zipFailB`
a failed `init_compressed_src`.  `encB` carries both the AEAD header
outcome (consumed only when the tag is 20) and the skip outcome
(consumed for tags 9/18). -/
inductive PktBody where
  | sigB (res : Option pgp_signature_t)
  | keyB (res : Option pgp_key_pkt_t)
  | uidB (res : Option pgp_userid_pkt_t)
  | pkskB (res : Option (pgp_pk_sesskey_t × pgp_encrypted_material_t))
  | skskB (res : Option pgp_sk_sesskey_t)
  | encB (aeadRes : Option pgp_aead_hdr_t) (skipOk : Bool)
  | onePassB (res : Option pgp_one_pass_sig_t)
  | zipB (alg : Nat) (inner : PacketList)
  | zipFailB (code : Nat)
  | litB (res : Option lit_dump_t)
  | markerB (ok : Bool)
  | skipB (ok : Bool)

/-- The packet stream: a list of packets, optionally ending in a
position where the next header peek fails with the given error code. -/
inductive PacketList where
  | nil
  | badHdr (code : Nat)
  | cons (p : pgp_packet_t) (rest : PacketList)
end

/-- Offset accessor. -/
def pgp_packet_t.off : pgp_packet_t → Nat
  | .mk o _ _ _ => o

/-- Header accessor. -/
def pgp_packet_t.hdr : pgp_packet_t → pgp_packet_hdr_t
  | .mk _ h _ _ => h

/-- Raw body bytes accessor (consumed only by the `dump_packets`
contents preview, which peeks them from the byte source). -/
def pgp_packet_t.rawBody : pgp_packet_t → List Nat
  | .mk _ _ r _ => r

/-- Body accessor. -/
def pgp_packet_t.body : pgp_packet_t → PktBody
  | .mk _ _ _ b => b

mutual
/-- `stream_dump_signature_pkt`: the decoded field sequence of one
signature packet (text path).  When the external `parse_material`
throws, the function returns right after the `signature material`
header, mirroring the early `return` in the catch block. -/
def stream_dump_signature_pkt (ctx : rnp_dump_ctx_t) (sig : pgp_signature_t) :
    List DField :=
  match sig with
  | .mk version sigType creation_time signer palg halg subpkts lbits material mthrow =>
    [DField.fnum "version" version, dst_print_sig_type (some "type") sigType] ++
    (if version < 4 then
       [dst_print_time (some "creation time") creation_time,
        dst_print_keyid (some "signing key id") signer]
     else []) ++
    [dst_print_palg none palg, dst_print_halg none halg] ++
    (if 4 ≤ version then
       [DField.note "hashed subpackets:"] ++
       signature_dump_subpackets ctx subpkts true ++
       [DField.note "unhashed subpackets:"] ++
       signature_dump_subpackets ctx subpkts false
     else []) ++
    [DField.fhex "lbits" lbits, DField.note "signature material:"] ++
    (if mthrow && known_sig_material_algs.contains palg then []
     else if palg = 1 || palg = 2 || palg = 3 then
       [dst_print_mpi "rsa s" material.rsa_s ctx.dump_mpi]
     else if palg = 17 then
       [dst_print_mpi "dsa r" material.dsa_r ctx.dump_mpi,
        dst_print_mpi "dsa s" material.dsa_s ctx.dump_mpi]
     else if palg = 22 || palg = 19 || palg = 99 || palg = 18 then
       [dst_print_mpi "ecc r" material.ecc_r ctx.dump_mpi,
        dst_print_mpi "ecc s" material.ecc_s ctx.dump_mpi]
     else if palg = 16 || palg = 20 then
       [dst_print_mpi "eg r" material.eg_r ctx.dump_mpi,
        dst_print_mpi "eg s" material.eg_s ctx.dump_mpi]
     else [DField.note "unknown algorithm"])

/-- `signature_dump_subpackets`: walk the subpacket list, dumping the
members of the selected (hashed / unhashed) area with their framing
line; the caller-side `none` line for an empty area is produced by
`signature_dump_subpackets_area`. -/
def signature_dump_subpackets (ctx : rnp_dump_ctx_t)
    (subs : List pgp_sig_subpkt_t) (hashed : Bool) : List DField :=
  match subs with
  | [] => []
  | s :: rest =>
    (if s.hashed = hashed then
       [DField.fnum "type" s.type, DField.fnum "len" s.len] ++
       (if s.critical then [DField.note "critical"] else []) ++
       (if ctx.dump_packets then
          [DField.note "subpacket contents:", DField.fhex "raw" s.data]
        else []) ++
       signature_dump_subpacket ctx s
     else []) ++
    signature_dump_subpackets ctx rest hashed

/-- `signature_dump_subpacket`: the type-specific payload fields of one
subpacket (text path). -/
def signature_dump_subpacket (ctx : rnp_dump_ctx_t) (s : pgp_sig_subpkt_t) :
    List DField :=
  match s with
  | .mk ty _len _hashed _critical data fields =>
    match fields with
    | .create t => [dst_print_time (some (id_str_lookup sig_subpkt_type_map ty "Unknown")) t]
    | .expiry t => [dst_print_expiration (some (id_str_lookup sig_subpkt_type_map ty "Unknown")) t]
    | .exportable b => [DField.fbool (id_str_lookup sig_subpkt_type_map ty "Unknown") b]
    | .trust amount level => [DField.fnum "amount" amount, DField.fnum "level" level]
    | .regexp str => [DField.fstr (id_str_lookup sig_subpkt_type_map ty "Unknown") str]
    | .revocable b => [DField.fbool (id_str_lookup sig_subpkt_type_map ty "Unknown") b]
    | .preferred arr =>
        if ty = 11 then [dst_print_algs (some "preferred symmetric algorithms") arr symm_alg_map]
        else if ty = 21 then [dst_print_algs (some "preferred hash algorithms") arr hash_alg_map]
        else if ty = 22 then [dst_print_algs (some "preferred compression algorithms") arr z_alg_map]
        else if ty = 34 then [dst_print_algs (some "preferred aead algorithms") arr aead_alg_map]
        else []
    | .revocation_key klass pkalg fp =>
        [DField.note (id_str_lookup sig_subpkt_type_map ty "Unknown"),
         DField.fnum "class" klass, dst_print_palg none pkalg,
         DField.fhex "fingerprint" fp]
    | .issuer keyid => [DField.fhex (id_str_lookup sig_subpkt_type_map ty "Unknown") keyid]
    | .notData human name value =>
        [DField.fbool "human" human, DField.fstr "name" name,
         DField.fhex "value" value]
    | .ks_prefs no_modify =>
        [DField.note (id_str_lookup sig_subpkt_type_map ty "Unknown"),
         DField.fbool "no-modify" no_modify]
    | .preferred_ks uri => [DField.fstr (id_str_lookup sig_subpkt_type_map ty "Unknown") uri]
    | .primary_uid b => [DField.fbool (id_str_lookup sig_subpkt_type_map ty "Unknown") b]
    | .policy uri => [DField.fstr (id_str_lookup sig_subpkt_type_map ty "Unknown") uri]
    | .key_flags flags => [DField.fnum (id_str_lookup sig_subpkt_type_map ty "Unknown") flags]
    | .signer uid => [DField.fstr (id_str_lookup sig_subpkt_type_map ty "Unknown") uid]
    | .revocation_reason code message =>
        [DField.intstr (id_str_lookup sig_subpkt_type_map ty "Unknown") code
           (id_str_lookup revoc_reason_map code "Unknown"),
         DField.fstr "message" message]
    | .features flags => [DField.fnum (id_str_lookup sig_subpkt_type_map ty "Unknown") flags]
    | .sig s' =>
        DField.note (id_str_lookup sig_subpkt_type_map ty "Unknown") ::
        stream_dump_signature_pkt ctx s'
    | .issuer_fp fp => [DField.fhex (id_str_lookup sig_subpkt_type_map ty "Unknown") fp]
    | .unknownSp => if !ctx.dump_packets then [DField.fhex "raw" data] else []
end

/-- `stream_dump_signature`: parse outcome handling of a signature
packet (text path): a failed parse reports `failed to parse` and
propagates the error; a successful parse dumps the packet and succeeds
regardless of the material section. -/
def stream_dump_signature (ctx : rnp_dump_ctx_t)
    (res : Option pgp_signature_t) : Nat × List DField :=
  match res with
  | none => (RNP_ERROR_GENERIC,
             [DField.note "Signature packet", DField.note "failed to parse"])
  | some sig => (RNP_SUCCESS,
                 DField.note "Signature packet" :: stream_dump_signature_pkt ctx sig)

mutual
/-- `stream_dump_signature_pkt_json`: result code and emitted fields of
one signature packet (JSON path).  A subpacket-level failure or a
throwing `parse_material` surfaces `RNP_ERROR_OUT_OF_MEMORY` with the
fields emitted so far; the material switch has no default output (the
`material` object stays empty for an unknown algorithm). -/
def stream_dump_signature_pkt_json (ctx : rnp_dump_ctx_t)
    (sig : pgp_signature_t) : Nat × List DField :=
  match sig with
  | .mk version sigType creation_time signer palg halg subpkts lbits material mthrow =>
    let head :=
      [DField.fnum "version" version,
       DField.intstr "type" sigType (id_str_lookup sig_type_map sigType "Unknown")] ++
      (if version < 4 then
         [DField.fnum "creation time" creation_time, DField.fhex "signer" signer]
       else []) ++
      [DField.intstr "algorithm" palg (id_str_lookup pubkey_alg_map palg "Unknown"),
       DField.intstr "hash algorithm" halg (id_str_lookup hash_alg_map halg "Unknown")]
    let sp := if 4 ≤ version then signature_dump_subpackets_json ctx subpkts
              else (true, [])
    if !sp.1 then (RNP_ERROR_OUT_OF_MEMORY, head ++ sp.2)
    else
      let head2 := head ++ sp.2 ++
        [DField.fhex "lbits" lbits, DField.note "material"]
      if mthrow && known_sig_material_algs.contains palg then
        (RNP_ERROR_OUT_OF_MEMORY, head2)
      else
        (RNP_SUCCESS, head2 ++
          (if palg = 1 || palg = 2 || palg = 3 then
             [DField.fmpi "s" (mpi_bits material.rsa_s)
                (if ctx.dump_mpi then some material.rsa_s.mpi else none)]
           else if palg = 17 then
             [DField.fmpi "r" (mpi_bits material.dsa_r)
                (if ctx.dump_mpi then some material.dsa_r.mpi else none),
              DField.fmpi "s" (mpi_bits material.dsa_s)
                (if ctx.dump_mpi then some material.dsa_s.mpi else none)]
           else if palg = 22 || palg = 19 || palg = 99 || palg = 18 then
             [DField.fmpi "r" (mpi_bits material.ecc_r)
                (if ctx.dump_mpi then some material.ecc_r.mpi else none),
              DField.fmpi "s" (mpi_bits material.ecc_s)
                (if ctx.dump_mpi then some material.ecc_s.mpi else none)]
           else if palg = 16 || palg = 20 then
             [DField.fmpi "r" (mpi_bits material.eg_r)
                (if ctx.dump_mpi then some material.eg_r.mpi else none),
              DField.fmpi "s" (mpi_bits material.eg_s)
                (if ctx.dump_mpi then some material.eg_s.mpi else none)]
           else []))

/-- `signature_dump_subpackets_json`: all subpackets (hashed and
unhashed areas alike) as one array; a member failure (an embedded
signature that fails) aborts with the fields emitted so far. -/
def signature_dump_subpackets_json (ctx : rnp_dump_ctx_t)
    (subs : List pgp_sig_subpkt_t) : Bool × List DField :=
  match subs with
  | [] => (true, [])
  | s :: rest =>
    let frame :=
      [DField.intstr "type" s.type (id_str_lookup sig_subpkt_type_map s.type "Unknown"),
       DField.fnum "length" s.len, DField.fbool "hashed" s.hashed,
       DField.fbool "critical" s.critical] ++
      (if ctx.dump_packets then [DField.fhex "raw" s.data] else [])
    let payload := signature_dump_subpacket_json ctx s
    if !payload.1 then (false, frame ++ payload.2)
    else
      let tail := signature_dump_subpackets_json ctx rest
      (tail.1, frame ++ payload.2 ++ tail.2)

/-- `signature_dump_subpacket_json`: the type-specific payload fields
of one subpacket (JSON path); the Bool is the C boolean result (false
only for a failing embedded signature). -/
def signature_dump_subpacket_json (ctx : rnp_dump_ctx_t)
    (s : pgp_sig_subpkt_t) : Bool × List DField :=
  match s with
  | .mk ty _len _hashed _critical data fields =>
    match fields with
    | .create t => (true, [DField.fnum "creation time" t])
    | .expiry t =>
        (true, [DField.fnum (if ty = 9 then "key expiration" else "expiration time") t])
    | .exportable b => (true, [DField.fbool "exportable" b])
    | .trust amount level =>
        (true, [DField.fnum "amount" amount, DField.fnum "level" level])
    | .regexp str => (true, [DField.fstr "regexp" str])
    | .revocable b => (true, [DField.fbool "revocable" b])
    | .preferred arr =>
        if ty = 11 then (true, [dst_print_algs (some "algorithms") arr symm_alg_map])
        else if ty = 21 then (true, [dst_print_algs (some "algorithms") arr hash_alg_map])
        else if ty = 22 then (true, [dst_print_algs (some "algorithms") arr z_alg_map])
        else if ty = 34 then (true, [dst_print_algs (some "algorithms") arr aead_alg_map])
        else (true, [])
    | .revocation_key klass pkalg fp =>
        (true, [DField.fnum "class" klass, DField.fnum "algorithm" pkalg,
                DField.fhex "fingerprint" fp])
    | .issuer keyid => (true, [DField.fhex "issuer keyid" keyid])
    | .notData human name value =>
        (true, [DField.fbool "human" human, DField.fstr "name" name,
                DField.fhex "value" value])
    | .ks_prefs no_modify => (true, [DField.fbool "no-modify" no_modify])
    | .preferred_ks uri => (true, [DField.fstr "uri" uri])
    | .primary_uid b => (true, [DField.fbool "primary" b])
    | .policy uri => (true, [DField.fstr "uri" uri])
    | .key_flags flags => (true, [DField.fnum "flags" flags])
    | .signer uid => (true, [DField.fstr "uid" uid])
    | .revocation_reason code message =>
        (true, [DField.intstr "code" code (id_str_lookup revoc_reason_map code "Unknown"),
                DField.fstr "message" message])
    | .features flags =>
        (true, [DField.fbool "mdc" (flags % 2 = 1),
                DField.fbool "aead" (flags / 2 % 2 = 1),
                DField.fbool "v5 keys" (flags / 4 % 2 = 1)])
    | .sig s' =>
        let inner := stream_dump_signature_pkt_json ctx s'
        (inner.1 = RNP_SUCCESS, DField.note "signature" :: inner.2)
    | .issuer_fp fp => (true, [DField.fhex "fingerprint" fp])
    | .unknownSp =>
        (true, if !ctx.dump_packets then [DField.fhex "raw" data] else [])
end

/-- `stream_dump_signature_json`: parse outcome handling of a signature
packet (JSON path): a failed parse propagates the error with no fields
of its own; otherwise the packet is dumped. -/
def stream_dump_signature_json (ctx : rnp_dump_ctx_t)
    (res : Option pgp_signature_t) : Nat × List DField :=
  match res with
  | none => (RNP_ERROR_GENERIC, [])
  | some sig => stream_dump_signature_pkt_json ctx sig

/-- `obj_add_mpi_json`: an MPI in the JSON path — always the bit count,
plus the raw bytes when `contents` is set. -/
def obj_add_mpi_json (name : String) (m : pgp_mpi_t) (contents : Bool) : DField :=
  DField.fmpi name (mpi_bits m) (if contents then some m.mpi else none)

/-- The public-key material section of `stream_dump_key` (the switch
on `key.alg`). -/
def stream_dump_key_material (ctx : rnp_dump_ctx_t) (alg : Nat)
    (mat : pgp_key_material_t) : List DField :=
  if alg = 1 || alg = 2 || alg = 3 then
    [dst_print_mpi "rsa n" mat.rsa_n ctx.dump_mpi,
     dst_print_mpi "rsa e" mat.rsa_e ctx.dump_mpi]
  else if alg = 17 then
    [dst_print_mpi "dsa p" mat.dsa_p ctx.dump_mpi,
     dst_print_mpi "dsa q" mat.dsa_q ctx.dump_mpi,
     dst_print_mpi "dsa g" mat.dsa_g ctx.dump_mpi,
     dst_print_mpi "dsa y" mat.dsa_y ctx.dump_mpi]
  else if alg = 16 || alg = 20 then
    [dst_print_mpi "eg p" mat.eg_p ctx.dump_mpi,
     dst_print_mpi "eg g" mat.eg_g ctx.dump_mpi,
     dst_print_mpi "eg y" mat.eg_y ctx.dump_mpi]
  else if alg = 19 || alg = 22 || alg = 99 then
    [dst_print_mpi "ecc p" mat.ec_p ctx.dump_mpi,
     DField.fstr "ecc curve" ((get_curve_desc mat.ec_curve).getD "unknown")]
  else if alg = 18 then
    [dst_print_mpi "ecdh p" mat.ec_p ctx.dump_mpi,
     DField.fstr "ecdh curve" ((get_curve_desc mat.ec_curve).getD "unknown"),
     dst_print_halg (some "ecdh hash algorithm") mat.ec_kdf_hash_alg,
     DField.fnum "ecdh key wrap algorithm" mat.ec_key_wrap_alg]
  else [DField.note "unknown public key algorithm"]

/-- The secret-key-material section of `stream_dump_key` (emitted only
for secret-key tags). -/
def stream_dump_key_secret (ver : Nat) (prot : pgp_key_protection_t)
    (v5s v5sec seclen : Nat) : List DField :=
  [DField.note "secret key material:",
   DField.fnum "s2k usage" prot.s2k.usage] ++
  (if ver = 5 then [DField.fnum "v5 s2k length" v5s] else []) ++
  (if prot.s2k.usage = PGP_S2KU_ENCRYPTED ||
      prot.s2k.usage = PGP_S2KU_ENCRYPTED_AND_HASHED then
     [dst_print_salg none prot.symm_alg] ++
     dst_print_s2k prot.s2k ++
     (if prot.s2k.specifier ≠ PGP_S2KS_EXPERIMENTAL then
        (if pgp_block_size prot.symm_alg ≠ 0 then
           [DField.fhex "cipher iv" (prot.iv.take (pgp_block_size prot.symm_alg))]
         else [DField.note "cipher iv: unknown algorithm"])
      else [])
   else []) ++
  (if ver = 5 then [DField.fnum "v5 secret key data length" v5sec] else []) ++
  (if prot.s2k.usage = 0 then
     [DField.fnum "cleartext secret key data" seclen]
   else [DField.fnum "encrypted secret key data" seclen])

/-- The derived-value tail of `stream_dump_key` (key id always,
fingerprint and grip only when requested; failures reported in-band). -/
def stream_dump_key_derived (ctx : rnp_dump_ctx_t) (ver : Nat)
    (kres fres gres : Option (List Nat)) : List DField :=
  (match kres with
   | some kid => [DField.fhex "keyid" kid]
   | none => [DField.note "keyid: failed to calculate"]) ++
  (if 3 < ver && ctx.dump_grips then
     match fres with
     | some fp => [DField.fhex "fingerprint" fp]
     | none => [DField.note "fingerprint: failed to calculate"]
   else []) ++
  (if ctx.dump_grips then
     match gres with
     | some g => [DField.fhex "grip" g]
     | none => [DField.note "grip: failed to calculate"]
   else [])

/-- `stream_dump_key`: a key packet (text path).  A failed parse
returns the error with no fields (the title is printed only after a
successful parse); a successful parse always succeeds, reporting
per-field failures of the derived-value collaborators in-band. -/
def stream_dump_key (ctx : rnp_dump_ctx_t) (res : Option pgp_key_pkt_t) :
    Nat × List DField :=
  match res with
  | none => (RNP_ERROR_GENERIC, [])
  | some key =>
    (RNP_SUCCESS,
     [DField.note (id_str_lookup key_type_map key.tag "Unknown" ++ " packet"),
      DField.fnum "version" key.version,
      dst_print_time (some "creation time") key.creation_time] ++
     (if key.version < 4 then [DField.fnum "v3 validity days" key.v3_days] else []) ++
     [dst_print_palg none key.alg] ++
     (if key.version = 5 then
        [DField.fnum "v5 public key material length" key.v5_pub_len] else []) ++
     [DField.note "public key material:"] ++
     stream_dump_key_material ctx key.alg key.material ++
     (if is_secret_key_pkt key.tag then
        stream_dump_key_secret key.version key.sec_protection
          key.v5_s2k_len key.v5_sec_len key.sec_len
      else []) ++
     stream_dump_key_derived ctx key.version key.keyid_res key.fp_res key.grip_res)

/-- The public-key material section of `stream_dump_key_json`. -/
def stream_dump_key_material_json (ctx : rnp_dump_ctx_t) (alg : Nat)
    (mat : pgp_key_material_t) : List DField :=
  if alg = 1 || alg = 2 || alg = 3 then
    [obj_add_mpi_json "n" mat.rsa_n ctx.dump_mpi,
     obj_add_mpi_json "e" mat.rsa_e ctx.dump_mpi]
  else if alg = 17 then
    [obj_add_mpi_json "p" mat.dsa_p ctx.dump_mpi,
     obj_add_mpi_json "q" mat.dsa_q ctx.dump_mpi,
     obj_add_mpi_json "g" mat.dsa_g ctx.dump_mpi,
     obj_add_mpi_json "y" mat.dsa_y ctx.dump_mpi]
  else if alg = 16 || alg = 20 then
    [obj_add_mpi_json "p" mat.eg_p ctx.dump_mpi,
     obj_add_mpi_json "g" mat.eg_g ctx.dump_mpi,
     obj_add_mpi_json "y" mat.eg_y ctx.dump_mpi]
  else if alg = 19 || alg = 22 || alg = 99 then
    [obj_add_mpi_json "p" mat.ec_p ctx.dump_mpi,
     DField.fstr "curve" ((get_curve_desc mat.ec_curve).getD "unknown")]
  else if alg = 18 then
    [obj_add_mpi_json "p" mat.ec_p ctx.dump_mpi,
     DField.fstr "curve" ((get_curve_desc mat.ec_curve).getD "unknown"),
     DField.intstr "hash algorithm" mat.ec_kdf_hash_alg
       (id_str_lookup hash_alg_map mat.ec_kdf_hash_alg "Unknown"),
     DField.intstr "key wrap algorithm" mat.ec_key_wrap_alg
       (id_str_lookup symm_alg_map mat.ec_key_wrap_alg "Unknown")]
  else []

/-- The secret-key portion of the JSON `material` object: the s2k
usage, the full S2K block (unconditionally — unlike the text path),
the symmetric algorithm only when the usage byte is nonzero, and the
v5 lengths; no cipher IV and no non-v5 secret data length. -/
def stream_dump_key_secret_json (ver : Nat) (prot : pgp_key_protection_t)
    (v5s v5sec : Nat) : List DField :=
  [DField.fnum "s2k usage" prot.s2k.usage] ++
  (if ver = 5 then [DField.fnum "v5 s2k length" v5s] else []) ++
  obj_add_s2k_json prot.s2k ++
  (if prot.s2k.usage ≠ 0 then
     [DField.intstr "symmetric algorithm" prot.symm_alg
       (id_str_lookup symm_alg_map prot.symm_alg "Unknown")]
   else []) ++
  (if ver = 5 then [DField.fnum "v5 secret key data length" v5sec] else [])

/-- The unconditional field prefix of `stream_dump_key_json` (emitted
before the derived-value computations that may abort the packet). -/
def stream_dump_key_json_head (ctx : rnp_dump_ctx_t) (key : pgp_key_pkt_t) :
    List DField :=
  [DField.fnum "version" key.version,
   DField.fnum "creation time" key.creation_time] ++
  (if key.version < 4 then [DField.fnum "v3 days" key.v3_days] else []) ++
  [DField.intstr "algorithm" key.alg (id_str_lookup pubkey_alg_map key.alg "Unknown")] ++
  (if key.version = 5 then
     [DField.fnum "v5 public key material length" key.v5_pub_len] else []) ++
  [DField.note "material"] ++
  stream_dump_key_material_json ctx key.alg key.material ++
  (if is_secret_key_pkt key.tag then
     stream_dump_key_secret_json key.version key.sec_protection
       key.v5_s2k_len key.v5_sec_len
   else [])

/-- `stream_dump_key_json`: a key packet (JSON path).  Unlike the text
path, the S2K block (`obj_add_s2k_json`) is emitted unconditionally for
secret keys, the symmetric algorithm only when the usage byte is
nonzero, no cipher IV is emitted, and a failing derived-value
collaborator aborts the packet with `RNP_ERROR_OUT_OF_MEMORY`. -/
def stream_dump_key_json (ctx : rnp_dump_ctx_t) (res : Option pgp_key_pkt_t) :
    Nat × List DField :=
  match res with
  | none => (RNP_ERROR_GENERIC, [])
  | some key =>
    let head := stream_dump_key_json_head ctx key
    match key.keyid_res with
    | none => (RNP_ERROR_OUT_OF_MEMORY, head)
    | some kid =>
      let head2 := head ++ [DField.fhex "keyid" kid]
      if ctx.dump_grips then
        match key.fp_res with
        | none => (RNP_ERROR_OUT_OF_MEMORY, head2)
        | some fp =>
          let head3 := head2 ++ [DField.fhex "fingerprint" fp]
          match key.grip_res with
          | none => (RNP_ERROR_OUT_OF_MEMORY, head3)
          | some g => (RNP_SUCCESS, head3 ++ [DField.fhex "grip" g])
      else (RNP_SUCCESS, head2)

/-- `PGP_MARKER_CONTENTS`: the fixed marker packet contents. -/
def PGP_MARKER_CONTENTS : String := "PGP"

/-- `stream_dump_userid`: a user id / user attribute packet (text
path). -/
def stream_dump_userid (res : Option pgp_userid_pkt_t) : Nat × List DField :=
  match res with
  | none => (RNP_ERROR_GENERIC, [])
  | some uid =>
    (RNP_SUCCESS,
     [DField.note ((if uid.tag = 13 then "UserID"
                    else if uid.tag = 17 then "UserAttr"
                    else "Unknown user id") ++ " packet")] ++
     (if uid.tag = 13 then [DField.fhex "id" uid.uid]
      else if uid.tag = 17 then [DField.fnum "id bytes" uid.uid_len]
      else []))

/-- `stream_dump_userid_json`: a user id / user attribute packet (JSON
path). -/
def stream_dump_userid_json (res : Option pgp_userid_pkt_t) : Nat × List DField :=
  match res with
  | none => (RNP_ERROR_GENERIC, [])
  | some uid =>
    (RNP_SUCCESS,
     if uid.tag = 13 then [DField.fhex "userid" uid.uid]
     else if uid.tag = 17 then [DField.fhex "userattr" uid.uid]
     else [])

/-- `stream_dump_pk_session_key`: a public-key encrypted session key
packet (text path); `none` covers both a failing parse and a failing
`parse_material` (which makes the whole packet fail, unlike for
signatures). -/
def stream_dump_pk_session_key (ctx : rnp_dump_ctx_t)
    (res : Option (pgp_pk_sesskey_t × pgp_encrypted_material_t)) :
    Nat × List DField :=
  match res with
  | none => (RNP_ERROR_BAD_FORMAT, [])
  | some (pkey, material) =>
    (RNP_SUCCESS,
     [DField.note "Public-key encrypted session key packet",
      DField.fnum "version" pkey.version,
      dst_print_keyid none pkey.key_id,
      dst_print_palg none pkey.alg,
      DField.note "encrypted material:"] ++
     (if pkey.alg = 1 || pkey.alg = 2 || pkey.alg = 3 then
        [dst_print_mpi "rsa m" material.rsa_m ctx.dump_mpi]
      else if pkey.alg = 16 || pkey.alg = 20 then
        [dst_print_mpi "eg g" material.eg_g ctx.dump_mpi,
         dst_print_mpi "eg m" material.eg_m ctx.dump_mpi]
      else if pkey.alg = 99 then
        [dst_print_mpi "sm2 m" material.sm2_m ctx.dump_mpi]
      else if pkey.alg = 18 then
        [dst_print_mpi "ecdh p" material.ecdh_p ctx.dump_mpi] ++
        (if ctx.dump_mpi then [DField.fhex "ecdh m" material.ecdh_m]
         else [DField.fnum "ecdh m" material.ecdh_mlen])
      else [DField.note "unknown public key algorithm"]))

/-- `stream_dump_pk_session_key_json`: a public-key encrypted session
key packet (JSON path). -/
def stream_dump_pk_session_key_json (ctx : rnp_dump_ctx_t)
    (res : Option (pgp_pk_sesskey_t × pgp_encrypted_material_t)) :
    Nat × List DField :=
  match res with
  | none => (RNP_ERROR_BAD_FORMAT, [])
  | some (pkey, material) =>
    (RNP_SUCCESS,
     [DField.fnum "version" pkey.version,
      DField.fhex "keyid" pkey.key_id,
      DField.intstr "algorithm" pkey.alg (id_str_lookup pubkey_alg_map pkey.alg "Unknown"),
      DField.note "material"] ++
     (if pkey.alg = 1 || pkey.alg = 2 || pkey.alg = 3 then
        [obj_add_mpi_json "m" material.rsa_m ctx.dump_mpi]
      else if pkey.alg = 16 || pkey.alg = 20 then
        [obj_add_mpi_json "g" material.eg_g ctx.dump_mpi,
         obj_add_mpi_json "m" material.eg_m ctx.dump_mpi]
      else if pkey.alg = 99 then
        [obj_add_mpi_json "m" material.sm2_m ctx.dump_mpi]
      else if pkey.alg = 18 then
        [obj_add_mpi_json "p" material.ecdh_p ctx.dump_mpi,
         DField.fnum "m.bytes" material.ecdh_mlen] ++
        (if ctx.dump_mpi then [DField.fhex "m" material.ecdh_m] else [])
      else []))

/-- `stream_dump_sk_session_key`: a symmetric-key encrypted session key
packet (text path). -/
def stream_dump_sk_session_key (res : Option pgp_sk_sesskey_t) :
    Nat × List DField :=
  match res with
  | none => (RNP_ERROR_GENERIC, [])
  | some skey =>
    (RNP_SUCCESS,
     [DField.note "Symmetric-key encrypted session key packet",
      DField.fnum "version" skey.version,
      dst_print_salg none skey.alg] ++
     (if skey.version = PGP_SKSK_V5 then [dst_print_aalg none skey.aalg] else []) ++
     dst_print_s2k skey.s2k ++
     (if skey.version = PGP_SKSK_V5 then
        [DField.fhex "aead iv" (skey.iv.take skey.ivlen)] else []) ++
     [DField.fhex "encrypted key" (skey.enckey.take skey.enckeylen)])

/-- `stream_dump_sk_session_key_json`: a symmetric-key encrypted
session key packet (JSON path). -/
def stream_dump_sk_session_key_json (res : Option pgp_sk_sesskey_t) :
    Nat × List DField :=
  match res with
  | none => (RNP_ERROR_GENERIC, [])
  | some skey =>
    (RNP_SUCCESS,
     [DField.fnum "version" skey.version,
      DField.intstr "algorithm" skey.alg (id_str_lookup symm_alg_map skey.alg "Unknown")] ++
     (if skey.version = PGP_SKSK_V5 then
        [DField.intstr "aead algorithm" skey.aalg
          (id_str_lookup aead_alg_map skey.aalg "Unknown")] else []) ++
     obj_add_s2k_json skey.s2k ++
     (if skey.version = PGP_SKSK_V5 then
        [DField.fhex "aead iv" (skey.iv.take skey.ivlen)] else []) ++
     [DField.fhex "encrypted key" (skey.enckey.take skey.enckeylen)])

/-- `stream_dump_aead_encrypted`: an AEAD-encrypted data packet (text
path); a failed AEAD header read reports an in-band error line and
fails with `RNP_ERROR_READ`. -/
def stream_dump_aead_encrypted (res : Option pgp_aead_hdr_t) : Nat × List DField :=
  match res with
  | none => (RNP_ERROR_READ,
             [DField.note "AEAD-encrypted data packet",
              DField.note "ERROR: failed to read AEAD header"])
  | some aead =>
    (RNP_SUCCESS,
     [DField.note "AEAD-encrypted data packet",
      DField.fnum "version" aead.version,
      dst_print_salg none aead.ealg,
      dst_print_aalg none aead.aalg,
      DField.fnum "chunk size" aead.csize,
      DField.fhex "initialization vector" (aead.iv.take aead.ivlen)])

/-- `stream_dump_encrypted`: an encrypted-data packet (text path):
AEAD packets are dumped, the other variants print a title and are
skipped wholesale. -/
def stream_dump_encrypted (aeadRes : Option pgp_aead_hdr_t) (skipOk : Bool)
    (tag : Nat) : Nat × List DField :=
  if tag = 20 then stream_dump_aead_encrypted aeadRes
  else
    ((if skipOk then RNP_SUCCESS else RNP_ERROR_READ),
     [DField.note
       (if tag = 9 then "Symmetrically-encrypted data packet"
        else if tag = 18 then "Symmetrically-encrypted integrity protected data packet"
        else "Unknown encrypted data packet")])

/-- `stream_dump_encrypted_json`: an encrypted-data packet (JSON path):
non-AEAD variants are skipped with no fields beyond the header. -/
def stream_dump_encrypted_json (aeadRes : Option pgp_aead_hdr_t) (skipOk : Bool)
    (tag : Nat) : Nat × List DField :=
  if tag ≠ 20 then
    ((if skipOk then RNP_SUCCESS else RNP_ERROR_READ), [])
  else
    match aeadRes with
    | none => (RNP_ERROR_READ, [])
    | some aead =>
      (RNP_SUCCESS,
       [DField.fnum "version" aead.version,
        DField.intstr "algorithm" aead.ealg (id_str_lookup symm_alg_map aead.ealg "Unknown"),
        DField.intstr "aead algorithm" aead.aalg (id_str_lookup aead_alg_map aead.aalg "Unknown"),
        DField.fnum "chunk size" aead.csize,
        DField.fhex "aead iv" (aead.iv.take aead.ivlen)])

/-- `stream_dump_one_pass`: a one-pass signature packet (text path). -/
def stream_dump_one_pass (res : Option pgp_one_pass_sig_t) : Nat × List DField :=
  match res with
  | none => (RNP_ERROR_GENERIC, [])
  | some onepass =>
    (RNP_SUCCESS,
     [DField.note "One-pass signature packet",
      DField.fnum "version" onepass.version,
      dst_print_sig_type none onepass.type,
      dst_print_halg none onepass.halg,
      dst_print_palg none onepass.palg,
      dst_print_keyid (some "signing key id") onepass.keyid,
      DField.fbool "nested" onepass.nested])

/-- `stream_dump_one_pass_json`: a one-pass signature packet (JSON
path). -/
def stream_dump_one_pass_json (res : Option pgp_one_pass_sig_t) : Nat × List DField :=
  match res with
  | none => (RNP_ERROR_GENERIC, [])
  | some onepass =>
    (RNP_SUCCESS,
     [DField.fnum "version" onepass.version,
      DField.intstr "type" onepass.type (id_str_lookup sig_type_map onepass.type "Unknown"),
      DField.intstr "hash algorithm" onepass.halg (id_str_lookup hash_alg_map onepass.halg "Unknown"),
      DField.intstr "public key algorithm" onepass.palg (id_str_lookup pubkey_alg_map onepass.palg "Unknown"),
      DField.fhex "signer" onepass.keyid,
      DField.fbool "nested" onepass.nested])

/-- `stream_dump_literal`: a literal data packet (text path).  The body
byte count is reported even when draining the literal source fails
mid-way (the failure is still surfaced as `RNP_ERROR_READ`). -/
def stream_dump_literal (res : Option lit_dump_t) : Nat × List DField :=
  match res with
  | none => (RNP_ERROR_GENERIC, [])
  | some l =>
    ((if l.read_ok then RNP_SUCCESS else RNP_ERROR_READ),
     [DField.note "Literal data packet",
      DField.fnum "data format" l.format,
      DField.fstr "filename" l.fname,
      DField.fnum "filename length" l.fname_len,
      dst_print_time (some "timestamp") l.timestamp,
      DField.fnum "data bytes" l.readb])

/-- `stream_dump_literal_json`: a literal data packet (JSON path); a
failing drain aborts before the `datalen` field. -/
def stream_dump_literal_json (res : Option lit_dump_t) : Nat × List DField :=
  match res with
  | none => (RNP_ERROR_GENERIC, [])
  | some l =>
    let head :=
      [DField.fnum "format" l.format,
       DField.fstr "filename" l.fname,
       DField.fnum "timestamp" l.timestamp]
    if l.read_ok then (RNP_SUCCESS, head ++ [DField.fnum "datalen" l.readb])
    else (RNP_ERROR_READ, head)

/-- `stream_dump_marker`: a marker packet (text path); an invalid
marker reports `invalid` contents and fails. -/
def stream_dump_marker (ok : Bool) : Nat × List DField :=
  ((if ok then RNP_SUCCESS else RNP_ERROR_BAD_FORMAT),
   [DField.note "Marker packet",
    DField.fstr "contents" (if ok then PGP_MARKER_CONTENTS else "invalid")])

/-- `stream_dump_marker_json`: a marker packet (JSON path). -/
def stream_dump_marker_json (ok : Bool) : Nat × List DField :=
  ((if ok then RNP_SUCCESS else RNP_ERROR_BAD_FORMAT),
   [DField.fstr "contents" (if ok then PGP_MARKER_CONTENTS else "invalid")])

/-- The header-line length message: `partial len`, `indeterminate len`
or `len N`. -/
def hdr_len_msg (hdr : pgp_packet_hdr_t) : String :=
  if hdr.isPart then "partial len"
  else if hdr.indeterminate then "indeterminate len"
  else "len " ++ toString hdr.pkt_len

mutual
/-- `stream_dump_packets_raw`: the text-path walker.  Returns the
result code, the final context (the counters as left by the walk) and
the emitted fields.  An empty stream succeeds immediately; otherwise
the layer counter is incremented — and never decremented again — and
when it exceeds `MAXIMUM_NESTING_LEVEL` the walk stops successfully
with a diagnostic note. -/
def stream_dump_packets_raw (L : Limits) (ctx : rnp_dump_ctx_t)
    (src : PacketList) : Nat × rnp_dump_ctx_t × List DField :=
  match src with
  | .nil => (RNP_SUCCESS, ctx, [])
  | src =>
    let ctx1 := { ctx with layers := ctx.layers + 1 }
    if L.MAXIMUM_NESTING_LEVEL < ctx1.layers then
      (RNP_SUCCESS, ctx1, [DField.note ":too many OpenPGP packet layers, stopping."])
    else
      stream_dump_packets_raw_loop L ctx1 src
termination_by (sizeOf src, 2)

/-- The `while (!src->eof())` loop of `stream_dump_packets_raw`: peek
the header (propagating a peek failure), emit the header echo and the
optional raw-contents preview, dispatch on the tag, then run the
common loop tail. -/
def stream_dump_packets_raw_loop (L : Limits) (ctx : rnp_dump_ctx_t)
    (src : PacketList) : Nat × rnp_dump_ctx_t × List DField :=
  match src with
  | .nil => (RNP_SUCCESS, ctx, [])
  | .badHdr code => (code, ctx, [])
  | .cons (.mk off hdr rawBody body) rest =>
    let hd := [DField.header off hdr.hdr hdr.tag (hdr_len_msg hdr)] ++
      (if ctx.dump_packets then [DField.rawpkt (off + hdr.hdr_len) (rawBody.take 1024)]
       else [])
    match body with
    | .sigB res =>
        let r := stream_dump_signature ctx res
        stream_dump_packets_raw_finish L ctx rest (hd ++ r.2) r.1
    | .keyB res =>
        let r := stream_dump_key ctx res
        stream_dump_packets_raw_finish L ctx rest (hd ++ r.2) r.1
    | .uidB res =>
        let r := stream_dump_userid res
        stream_dump_packets_raw_finish L ctx rest (hd ++ r.2) r.1
    | .pkskB res =>
        let r := stream_dump_pk_session_key ctx res
        stream_dump_packets_raw_finish L ctx rest (hd ++ r.2) r.1
    | .skskB res =>
        let r := stream_dump_sk_session_key res
        stream_dump_packets_raw_finish L ctx rest (hd ++ r.2) r.1
    | .encB aeadRes skipOk =>
        let ctx2 := { ctx with stream_pkts := ctx.stream_pkts + 1 }
        let r := stream_dump_encrypted aeadRes skipOk hdr.tag
        stream_dump_packets_raw_finish L ctx2 rest (hd ++ r.2) r.1
    | .onePassB res =>
        let r := stream_dump_one_pass res
        stream_dump_packets_raw_finish L ctx rest (hd ++ r.2) r.1
    | .zipB alg inner =>
        let ctx2 := { ctx with stream_pkts := ctx.stream_pkts + 1 }
        let r := stream_dump_packets_raw L ctx2 inner
        stream_dump_packets_raw_finish L r.2.1 rest
          (hd ++ [DField.note "Compressed data packet", dst_print_zalg none alg,
                  DField.note "Decompressed contents:"] ++ r.2.2) r.1
    | .zipFailB code =>
        let ctx2 := { ctx with stream_pkts := ctx.stream_pkts + 1 }
        stream_dump_packets_raw_finish L ctx2 rest hd code
    | .litB res =>
        let ctx2 := { ctx with stream_pkts := ctx.stream_pkts + 1 }
        let r := stream_dump_literal res
        stream_dump_packets_raw_finish L ctx2 rest (hd ++ r.2) r.1
    | .markerB ok =>
        let r := stream_dump_marker ok
        stream_dump_packets_raw_finish L ctx rest (hd ++ r.2) r.1
    | .skipB ok =>
        if hdr.tag = 12 || hdr.tag = 19 then
          stream_dump_packets_raw_finish L ctx rest
            (hd ++ [DField.note ("Skipping unhandled pkt: " ++ toString hdr.tag)])
            (if ok then RNP_SUCCESS else RNP_ERROR_READ)
        else
          let fields := hd ++ [DField.note ("Skipping Unknown pkt: " ++ toString hdr.tag)]
          if !ok then (RNP_ERROR_READ, ctx, fields)
          else if L.MAXIMUM_ERROR_PKTS < ctx.failures + 1 then
            (RNP_SUCCESS, { ctx with failures := ctx.failures + 1 }, fields)
          else
            stream_dump_packets_raw_finish L
              { ctx with failures := ctx.failures + 1 } rest fields RNP_SUCCESS
termination_by (sizeOf src, 0)

/-- The tail of the `stream_dump_packets_raw` loop body: a nonzero
per-packet result increments the failure counter and aborts with that
result once the counter exceeds `MAXIMUM_ERROR_PKTS`; then the
stream-packet soft stop is checked; otherwise the loop continues. -/
def stream_dump_packets_raw_finish (L : Limits) (ctx : rnp_dump_ctx_t)
    (rest : PacketList) (acc : List DField) (ret : Nat) :
    Nat × rnp_dump_ctx_t × List DField :=
  let step :=
    if ret ≠ RNP_SUCCESS then
      let c := { ctx with failures := ctx.failures + 1 }
      (c, decide (L.MAXIMUM_ERROR_PKTS < c.failures))
    else (ctx, false)
  if step.2 then (ret, step.1, acc)
  else if L.MAXIMUM_STREAM_PKTS < step.1.stream_pkts then
    (RNP_SUCCESS, step.1,
     acc ++ [DField.note ":too many OpenPGP stream packets, stopping."])
  else
    let r := stream_dump_packets_raw_loop L step.1 rest
    (r.1, r.2.1, acc ++ r.2.2)
termination_by (sizeOf rest, 1)
end

/-- `stream_dump_hdr_json`: the JSON header object of one packet —
offset, tag with its label, raw header bytes, the length only for
definite-length packets, and the partial / indeterminate flags. -/
def stream_dump_hdr_json (off : Nat) (hdr : pgp_packet_hdr_t) : List DField :=
  [DField.fnum "offset" off,
   DField.intstr "tag" hdr.tag (id_str_lookup packet_tag_map hdr.tag "Unknown"),
   DField.fhex "raw" hdr.hdr] ++
  (if !hdr.isPart && !hdr.indeterminate then
     [DField.fnum "length" hdr.pkt_len] else []) ++
  [DField.fbool "partial flag" hdr.isPart,
   DField.fbool "indeterminate" hdr.indeterminate]

mutual
/-- `stream_dump_raw_packets_json`: the JSON-path walker.  An empty
stream yields an empty packet array successfully; otherwise the layer
counter is incremented (never decremented) and, when it exceeds
`MAXIMUM_NESTING_LEVEL`, the walk stops successfully with an empty
array — no diagnostic note is emitted in the JSON output (only a log
message is written). -/
def stream_dump_raw_packets_json (L : Limits) (ctx : rnp_dump_ctx_t)
    (src : PacketList) : Nat × rnp_dump_ctx_t × List DField :=
  match src with
  | .nil => (RNP_SUCCESS, ctx, [])
  | src =>
    let ctx1 := { ctx with layers := ctx.layers + 1 }
    if L.MAXIMUM_NESTING_LEVEL < ctx1.layers then
      (RNP_SUCCESS, ctx1, [])
    else
      stream_dump_raw_packets_json_loop L ctx1 src
termination_by (sizeOf src, 2)

/-- The `while (!src->eof())` loop of `stream_dump_raw_packets_json`.
Unknown-tag packets whose skip fails, or that push the failure counter
over the threshold, abort with the current packet object discarded;
for unknown-tag overflow the result is `RNP_ERROR_BAD_FORMAT` (unlike
the text path, which returns success there). -/
def stream_dump_raw_packets_json_loop (L : Limits) (ctx : rnp_dump_ctx_t)
    (src : PacketList) : Nat × rnp_dump_ctx_t × List DField :=
  match src with
  | .nil => (RNP_SUCCESS, ctx, [])
  | .badHdr _code => (RNP_ERROR_OUT_OF_MEMORY, ctx, [])
  | .cons (.mk off hdr rawBody body) rest =>
    let hd := stream_dump_hdr_json off hdr ++
      (if ctx.dump_packets then [DField.fhex "raw" (rawBody.take 2048)] else [])
    match body with
    | .sigB res =>
        let r := stream_dump_signature_json ctx res
        stream_dump_raw_packets_json_finish L ctx rest (hd ++ r.2) r.1
    | .keyB res =>
        let r := stream_dump_key_json ctx res
        stream_dump_raw_packets_json_finish L ctx rest (hd ++ r.2) r.1
    | .uidB res =>
        let r := stream_dump_userid_json res
        stream_dump_raw_packets_json_finish L ctx rest (hd ++ r.2) r.1
    | .pkskB res =>
        let r := stream_dump_pk_session_key_json ctx res
        stream_dump_raw_packets_json_finish L ctx rest (hd ++ r.2) r.1
    | .skskB res =>
        let r := stream_dump_sk_session_key_json res
        stream_dump_raw_packets_json_finish L ctx rest (hd ++ r.2) r.1
    | .encB aeadRes skipOk =>
        let ctx2 := { ctx with stream_pkts := ctx.stream_pkts + 1 }
        let r := stream_dump_encrypted_json aeadRes skipOk hdr.tag
        stream_dump_raw_packets_json_finish L ctx2 rest (hd ++ r.2) r.1
    | .onePassB res =>
        let r := stream_dump_one_pass_json res
        stream_dump_raw_packets_json_finish L ctx rest (hd ++ r.2) r.1
    | .zipB alg inner =>
        let ctx2 := { ctx with stream_pkts := ctx.stream_pkts + 1 }
        let pre := [DField.intstr "algorithm" alg (id_str_lookup z_alg_map alg "Unknown")]
        let r := stream_dump_raw_packets_json L ctx2 inner
        if r.1 = RNP_SUCCESS then
          stream_dump_raw_packets_json_finish L r.2.1 rest
            (hd ++ pre ++ DField.note "contents" :: r.2.2) RNP_SUCCESS
        else
          stream_dump_raw_packets_json_finish L r.2.1 rest (hd ++ pre) r.1
    | .zipFailB code =>
        let ctx2 := { ctx with stream_pkts := ctx.stream_pkts + 1 }
        stream_dump_raw_packets_json_finish L ctx2 rest hd code
    | .litB res =>
        let ctx2 := { ctx with stream_pkts := ctx.stream_pkts + 1 }
        let r := stream_dump_literal_json res
        stream_dump_raw_packets_json_finish L ctx2 rest (hd ++ r.2) r.1
    | .markerB ok =>
        let r := stream_dump_marker_json ok
        stream_dump_raw_packets_json_finish L ctx rest (hd ++ r.2) r.1
    | .skipB ok =>
        if hdr.tag = 12 || hdr.tag = 19 then
          stream_dump_raw_packets_json_finish L ctx rest hd
            (if ok then RNP_SUCCESS else RNP_ERROR_READ)
        else
          if !ok then (RNP_ERROR_READ, ctx, [])
          else if L.MAXIMUM_ERROR_PKTS < ctx.failures + 1 then
            (RNP_ERROR_BAD_FORMAT, { ctx with failures := ctx.failures + 1 }, [])
          else
            stream_dump_raw_packets_json_finish L
              { ctx with failures := ctx.failures + 1 } rest hd RNP_SUCCESS
termination_by (sizeOf src, 0)

/-- The tail of the `stream_dump_raw_packets_json` loop body: a
nonzero per-packet result increments the failure counter, aborting
with that result — and with the current packet object discarded — once
the counter exceeds `MAXIMUM_ERROR_PKTS`; otherwise the packet object
is appended to the array and the stream-packet soft stop (a plain
`break`, no note) is checked. -/
def stream_dump_raw_packets_json_finish (L : Limits) (ctx : rnp_dump_ctx_t)
    (rest : PacketList) (pktFields : List DField) (ret : Nat) :
    Nat × rnp_dump_ctx_t × List DField :=
  let step :=
    if ret ≠ RNP_SUCCESS then
      let c := { ctx with failures := ctx.failures + 1 }
      (c, decide (L.MAXIMUM_ERROR_PKTS < c.failures))
    else (ctx, false)
  if step.2 then (ret, step.1, [])
  else if L.MAXIMUM_STREAM_PKTS < step.1.stream_pkts then
    (RNP_SUCCESS, step.1, pktFields)
  else
    let r := stream_dump_raw_packets_json_loop L step.1 rest
    (r.1, r.2.1, pktFields ++ r.2.2)
termination_by (sizeOf rest, 1)
end

/-- The top-level input source: the stream-classification predicates
(`is_cleartext`, `is_armored`), the outcomes of the external cleartext
scan and armor transform, and the packet sequence the (possibly
unwrapped) binary stream delivers. -/
structure pgp_source_t where
  cleartext : Bool
  cleartext_skip_ok : Bool
  armored : Bool
  armor_ok : Bool
  pkts : PacketList

/-- `stream_dump_packets`: the text-path top level.  Resets the three
context counters, skips cleartext framing (a failed scan is a hard
format error), unwraps armor (a failed init is a hard error), treats an
immediately-at-EOF stream as a successful `:empty input` case, and
otherwise hands off to the walker. -/
def stream_dump_packets (L : Limits) (ctx : rnp_dump_ctx_t)
    (src : pgp_source_t) : Nat × rnp_dump_ctx_t × List DField :=
  let ctx0 := { ctx with layers := 0, stream_pkts := 0, failures := 0 }
  if src.cleartext && !src.cleartext_skip_ok then
    (RNP_ERROR_BAD_FORMAT, ctx0, [DField.note ":cleartext signed data"])
  else
    let out0 := if src.cleartext then [DField.note ":cleartext signed data"] else []
    if src.armored && !src.armor_ok then (RNP_ERROR_BAD_FORMAT, ctx0, out0)
    else
      let out1 := out0 ++ (if src.armored then [DField.note ":armored input"] else [])
      match src.pkts with
      | .nil => (RNP_SUCCESS, ctx0, out1 ++ [DField.note ":empty input"])
      | ps =>
        let r := stream_dump_packets_raw L ctx0 ps
        (r.1, r.2.1, out1 ++ r.2.2)

/-- `stream_dump_packets_json`: the JSON-path top level.  Same framing
handling as the text path, but an immediately-at-EOF stream returns
`RNP_ERROR_NOT_ENOUGH_DATA` — an error — instead of a successful empty
result, and no framing notes are emitted. -/
def stream_dump_packets_json (L : Limits) (ctx : rnp_dump_ctx_t)
    (src : pgp_source_t) : Nat × rnp_dump_ctx_t × List DField :=
  let ctx0 := { ctx with layers := 0, stream_pkts := 0, failures := 0 }
  if src.cleartext && !src.cleartext_skip_ok then
    (RNP_ERROR_BAD_FORMAT, ctx0, [])
  else if src.armored && !src.armor_ok then
    (RNP_ERROR_BAD_FORMAT, ctx0, [])
  else
    match src.pkts with
    | .nil => (RNP_ERROR_NOT_ENOUGH_DATA, ctx0, [])
    | ps => stream_dump_raw_packets_json L ctx0 ps

/-- The field name of a dump record entry (empty for notes, header
echoes and raw previews). -/
def dfield_name : DField → String
  | .note _ => ""
  | .header _ _ _ _ => ""
  | .rawpkt _ _ => ""
  | .fnum n _ => n
  | .fstr n _ => n
  | .fbool n _ => n
  | .fhex n _ => n
  | .intstr n _ _ => n
  | .falgs n _ _ => n
  | .fmpi n _ _ => n

/-- Whether the output contains a field with the given name. -/
def has_field (out : List DField) (n : String) : Bool :=
  out.any (fun f => dfield_name f == n)

/-- Number of packet header echoes in a text-path output (one per
packet the walk processed). -/
def count_hdrs (out : List DField) : Nat :=
  out.countP (fun f => match f with | .header _ _ _ _ => true | _ => false)

theorem has_field_append (a b : List DField) (n : String) :
    has_field (a ++ b) n = (has_field a n || has_field b n) := by
  simp [has_field, List.any_append]

theorem count_hdrs_append (a b : List DField) :
    count_hdrs (a ++ b) = count_hdrs a + count_hdrs b := by
  simp [count_hdrs, List.countP_append]

theorem has_field_nil (n : String) : has_field [] n = false := rfl

theorem has_field_cons (f : DField) (t : List DField) (n : String) :
    has_field (f :: t) n = ((dfield_name f == n) || has_field t n) := by
  simp [has_field]

theorem has_field_ite (c : Prop) [Decidable c] (a b : List DField) (n : String) :
    has_field (if c then a else b) n =
      if c then has_field a n else has_field b n := by
  split <;> rfl

/-- A fresh dump context with the given verbosity flags. -/
def mk_ctx (m p g : Bool) : rnp_dump_ctx_t :=
  { dump_mpi := m, dump_packets := p, dump_grips := g,
    layers := 0, stream_pkts := 0, failures := 0 }

/-- A plain (non-cleartext, non-armored) source delivering the given
packets. -/
def plain_src (pkts : PacketList) : pgp_source_t :=
  { cleartext := false, cleartext_skip_ok := true,
    armored := false, armor_ok := true, pkts := pkts }

/-- The framing notes the text path emits before the walk. -/
def framing_notes (src : pgp_source_t) : List DField :=
  (if src.cleartext then [DField.note ":cleartext signed data"] else []) ++
  (if src.armored then [DField.note ":armored input"] else [])

/-- C1 counterexample input: an empty, unframed stream. -/
def empty_src : pgp_source_t :=
  { cleartext := false, cleartext_skip_ok := true,
    armored := false, armor_ok := true, pkts := .nil }

/-- Example limits used by concrete counterexamples and witnesses. -/
def L32 : Limits :=
  { MAXIMUM_NESTING_LEVEL := 32, MAXIMUM_STREAM_PKTS := 16384,
    MAXIMUM_ERROR_PKTS := 100 }

/-- C1: the claim states that both rendering paths return success with
an empty record sequence on an immediately-at-EOF stream.  The JSON
path does not: `stream_dump_packets_json` returns
`RNP_ERROR_NOT_ENOUGH_DATA` on an empty unframed stream. -/
theorem C1_empty_input_counterexample :
    (stream_dump_packets_json L32 (mk_ctx false false false) empty_src).1 =
      RNP_ERROR_NOT_ENOUGH_DATA ∧
    ¬ (stream_dump_packets_json L32 (mk_ctx false false false) empty_src).1 =
      RNP_SUCCESS := by
  constructor
  · rfl
  · decide

/-- C1 (amended): on an input stream that is immediately at EOF after
framing, the text path returns success with only the framing notes and
the `:empty input` note — an empty record sequence — while the JSON
path returns the error `RNP_ERROR_NOT_ENOUGH_DATA` with no output. -/
theorem C1_empty_input_amended (L : Limits) (ctx : rnp_dump_ctx_t)
    (src : pgp_source_t)
    (hck : src.cleartext_skip_ok = true) (harm : src.armor_ok = true)
    (heof : src.pkts = .nil) :
    (stream_dump_packets L ctx src).1 = RNP_SUCCESS ∧
    (stream_dump_packets L ctx src).2.2 =
      framing_notes src ++ [DField.note ":empty input"] ∧
    (stream_dump_packets_json L ctx src).1 = RNP_ERROR_NOT_ENOUGH_DATA ∧
    (stream_dump_packets_json L ctx src).2.2 = [] := by
  obtain ⟨ct, cok, ar, aok, pkts⟩ := src
  simp only at hck harm heof
  subst hck harm heof
  refine ⟨?_, ?_, ?_, ?_⟩ <;>
    cases ct <;> cases ar <;>
      simp [stream_dump_packets, stream_dump_packets_json, framing_notes]

/-- C1 witness: the amended statement at the concrete empty input. -/
theorem C1_empty_input_witness :
    (stream_dump_packets L32 (mk_ctx false false false) empty_src).1 =
      RNP_SUCCESS ∧
    (stream_dump_packets L32 (mk_ctx false false false) empty_src).2.2 =
      framing_notes empty_src ++ [DField.note ":empty input"] ∧
    (stream_dump_packets_json L32 (mk_ctx false false false) empty_src).1 =
      RNP_ERROR_NOT_ENOUGH_DATA ∧
    (stream_dump_packets_json L32 (mk_ctx false false false) empty_src).2.2 = [] :=
  C1_empty_input_amended L32 (mk_ctx false false false) empty_src rfl rfl rfl

/-- C8: the registry lookup is a pure total function: it returns the
label of the first table entry whose code matches, and the `Unknown`
sentinel when no entry matches; instantiated on the program's
`packet_tag_map` and `pubkey_alg_map` tables for a present and an
absent code. -/
theorem C8_lookup_total_correct :
    (∀ (tbl : List (Nat × String)) (code : Nat),
       id_str_lookup tbl code "Unknown" =
         (match tbl.find? (fun p => p.1 == code) with
          | some p => p.2
          | none => "Unknown")) ∧
    id_str_lookup packet_tag_map 2 "Unknown" = "Signature" ∧
    id_str_lookup packet_tag_map 63 "Unknown" = "Unknown" ∧
    id_str_lookup pubkey_alg_map 17 "Unknown" = "DSA" ∧
    id_str_lookup pubkey_alg_map 100 "Unknown" = "Unknown" := by
  refine ⟨?_, rfl, rfl, rfl, rfl⟩
  intro tbl code
  induction tbl with
  | nil => rfl
  | cons hd tl ih =>
    obtain ⟨i, s⟩ := hd
    by_cases h : i = code
    · subst h
      simp [id_str_lookup, List.find?]
    · have hb : (i == code) = false := by simpa using h
      simp [id_str_lookup, List.find?, h, hb, ih]


mutual
/-- The walker never decreases the layer counter. -/
theorem layers_le_raw (L : Limits) (ctx : rnp_dump_ctx_t) (src : PacketList) :
    ctx.layers ≤ (stream_dump_packets_raw L ctx src).2.1.layers := by
  cases src with
  | nil => simp [stream_dump_packets_raw]
  | badHdr c =>
      simp only [stream_dump_packets_raw]
      split
      · exact Nat.le_succ _
      · exact le_trans (Nat.le_succ _)
          (layers_le_loop L { ctx with layers := ctx.layers + 1 } (.badHdr c))
  | cons p rest =>
      simp only [stream_dump_packets_raw]
      split
      · exact Nat.le_succ _
      · exact le_trans (Nat.le_succ _)
          (layers_le_loop L { ctx with layers := ctx.layers + 1 } (.cons p rest))
termination_by (sizeOf src, 2)

/-- The walker loop never decreases the layer counter. -/
theorem layers_le_loop (L : Limits) (ctx : rnp_dump_ctx_t) (src : PacketList) :
    ctx.layers ≤ (stream_dump_packets_raw_loop L ctx src).2.1.layers := by
  cases src with
  | nil => simp [stream_dump_packets_raw_loop]
  | badHdr c => simp [stream_dump_packets_raw_loop]
  | cons p rest =>
    obtain ⟨off, hdr, rawBody, body⟩ := p
    cases body with
    | sigB res =>
        simp only [stream_dump_packets_raw_loop]
        exact layers_le_finish L ctx rest _ _
    | keyB res =>
        simp only [stream_dump_packets_raw_loop]
        exact layers_le_finish L ctx rest _ _
    | uidB res =>
        simp only [stream_dump_packets_raw_loop]
        exact layers_le_finish L ctx rest _ _
    | pkskB res =>
        simp only [stream_dump_packets_raw_loop]
        exact layers_le_finish L ctx rest _ _
    | skskB res =>
        simp only [stream_dump_packets_raw_loop]
        exact layers_le_finish L ctx rest _ _
    | encB res ok =>
        simp only [stream_dump_packets_raw_loop]
        exact layers_le_finish L { ctx with stream_pkts := ctx.stream_pkts + 1 } rest _ _
    | onePassB res =>
        simp only [stream_dump_packets_raw_loop]
        exact layers_le_finish L ctx rest _ _
    | zipB alg inner =>
        simp only [stream_dump_packets_raw_loop]
        exact le_trans
          (layers_le_raw L { ctx with stream_pkts := ctx.stream_pkts + 1 } inner)
          (layers_le_finish L _ rest _ _)
    | zipFailB code =>
        simp only [stream_dump_packets_raw_loop]
        exact layers_le_finish L { ctx with stream_pkts := ctx.stream_pkts + 1 } rest _ _
    | litB res =>
        simp only [stream_dump_packets_raw_loop]
        exact layers_le_finish L { ctx with stream_pkts := ctx.stream_pkts + 1 } rest _ _
    | markerB ok =>
        simp only [stream_dump_packets_raw_loop]
        exact layers_le_finish L ctx rest _ _
    | skipB ok =>
        simp only [stream_dump_packets_raw_loop]
        split
        · exact layers_le_finish L ctx rest _ _
        · split
          · exact le_refl _
          · split
            · exact le_refl _
            · exact layers_le_finish L { ctx with failures := ctx.failures + 1 } rest _ _
termination_by (sizeOf src, 0)

/-- The loop tail never decreases the layer counter. -/
theorem layers_le_finish (L : Limits) (ctx : rnp_dump_ctx_t) (rest : PacketList)
    (acc : List DField) (ret : Nat) :
    ctx.layers ≤ (stream_dump_packets_raw_finish L ctx rest acc ret).2.1.layers := by
  unfold stream_dump_packets_raw_finish
  dsimp only
  split
  · split
    · simp
    · split
      · simp
      · exact layers_le_loop L { ctx with failures := ctx.failures + 1 } rest
  · split
    · simp
    · split
      · simp
      · exact layers_le_loop L ctx rest
termination_by (sizeOf rest, 1)
end

/-- A valid marker packet (tag 10) at offset 2. -/
def marker_pkt : pgp_packet_t :=
  .mk 2 { tag := 10, hdr := [202, 3], hdr_len := 2, pkt_len := 3,
          isPart := false, indeterminate := false } [80, 71, 80] (.markerB true)

/-- A compressed-data packet (tag 8, ZIP) wrapping one marker packet,
as a one-packet stream. -/
def zip_marker_stream : PacketList :=
  .cons (.mk 0 { tag := 8, hdr := [200, 0], hdr_len := 2, pkt_len := 0,
                 isPart := false, indeterminate := true } []
           (.zipB 1 (.cons marker_pkt .nil))) .nil

/-- C2: the claim states `ctx->layers` is restored to its previous
value when the recursive walk over a compressed packet's contents
returns.  It is not: walking one compressed packet containing a marker
from a fresh context leaves `layers = 2` (one increment for the top
walk, one — never undone — for the recursive walk), where the claim
demands it return to `1`. -/
theorem C2_layers_counterexample :
    (stream_dump_packets_raw L32 (mk_ctx false false false) zip_marker_stream).2.1.layers = 2 ∧
    ¬ (stream_dump_packets_raw L32 (mk_ctx false false false) zip_marker_stream).2.1.layers = 1 := by
  have h : (stream_dump_packets_raw L32 (mk_ctx false false false) zip_marker_stream).2.1.layers = 2 := by
    simp [stream_dump_packets_raw, stream_dump_packets_raw_loop,
          stream_dump_packets_raw_finish, zip_marker_stream, marker_pkt, mk_ctx, L32,
          stream_dump_marker, RNP_SUCCESS, RNP_ERROR_BAD_FORMAT, PGP_MARKER_CONTENTS]
  exact ⟨h, by simp [h]⟩

/-- C2 (amended): the nesting counter is incremented when the walker
enters a nonempty (possibly decompressed) stream and is never
decremented: after the recursive walk over a compressed packet's
contents returns, the counter is at least one greater than before the
walk — it counts walker entries cumulatively rather than tracking the
current depth — and no walk ever decreases it. -/
theorem C2_layers_amended (L : Limits) (ctx : rnp_dump_ctx_t) :
    (∀ inner : PacketList, inner ≠ .nil →
       ctx.layers + 1 ≤ (stream_dump_packets_raw L ctx inner).2.1.layers) ∧
    (∀ src : PacketList, ctx.layers ≤ (stream_dump_packets_raw L ctx src).2.1.layers) := by
  refine ⟨?_, fun src => layers_le_raw L ctx src⟩
  intro inner hne
  cases inner with
  | nil => exact absurd rfl hne
  | badHdr c =>
      simp only [stream_dump_packets_raw]
      split
      · exact le_refl _
      · exact layers_le_loop L { ctx with layers := ctx.layers + 1 } (.badHdr c)
  | cons p rest =>
      simp only [stream_dump_packets_raw]
      split
      · exact le_refl _
      · exact layers_le_loop L { ctx with layers := ctx.layers + 1 } (.cons p rest)

/-- C2 witness: the amended statement at the compressed-marker input. -/
theorem C2_layers_witness :
    (mk_ctx false false false).layers + 1 ≤
      (stream_dump_packets_raw L32 (mk_ctx false false false) zip_marker_stream).2.1.layers :=
  (C2_layers_amended L32 (mk_ctx false false false)).1 zip_marker_stream
    (fun h => PacketList.noConfusion h)

/-- A one-byte MPI. -/
def mpi1 : pgp_mpi_t := { mpi := [1], len := 1 }

/-- Signature material with every union member set to `mpi1`. -/
def sig_material1 : pgp_signature_material_t :=
  { rsa_s := mpi1, dsa_r := mpi1, dsa_s := mpi1, ecc_r := mpi1,
    ecc_s := mpi1, eg_r := mpi1, eg_s := mpi1 }

/-- A version-4 RSA binary-document signature with no subpackets. -/
def sig_rsa : pgp_signature_t :=
  .mk 4 0 0 [] 1 8 [] [0, 0] sig_material1 false

/-- A one-packet stream holding the parsed RSA signature (tag 2). -/
def sig_rsa_stream : PacketList :=
  .cons (.mk 0 { tag := 2, hdr := [137, 0], hdr_len := 2, pkt_len := 10,
                 isPart := false, indeterminate := false } []
           (.sigB (some sig_rsa))) .nil

/-- C7: the claim states the output is a pure function of the input
plus the two flags `dump_packets` and `dump_grips`.  It is not: two
contexts agreeing on those two flags but differing in the third
verbosity flag `dump_mpi` produce different outputs on an RSA
signature packet (MPI bit counts only versus raw MPI contents). -/
theorem C7_two_flags_counterexample :
    (mk_ctx false false false).dump_packets = (mk_ctx true false false).dump_packets ∧
    (mk_ctx false false false).dump_grips = (mk_ctx true false false).dump_grips ∧
    (stream_dump_packets L32 (mk_ctx false false false) (plain_src sig_rsa_stream)).2.2 ≠
      (stream_dump_packets L32 (mk_ctx true false false) (plain_src sig_rsa_stream)).2.2 := by
  refine ⟨rfl, rfl, ?_⟩
  simp [stream_dump_packets, stream_dump_packets_raw, stream_dump_packets_raw_loop,
        stream_dump_packets_raw_finish, stream_dump_signature, stream_dump_signature_pkt,
        signature_dump_subpackets, plain_src, sig_rsa_stream, sig_rsa, sig_material1,
        mpi1, mk_ctx, L32, framing_notes, hdr_len_msg, dst_print_sig_type,
        dst_print_time, dst_print_keyid, dst_print_palg, dst_print_halg, dst_print_mpi,
        mpi_bits, id_str_lookup, sig_type_map, pubkey_alg_map, hash_alg_map,
        known_sig_material_algs, RNP_SUCCESS, RNP_ERROR_GENERIC, RNP_ERROR_BAD_FORMAT]

/-- C7 (amended): the output of either rendering path is a pure
function of the input stream plus the three verbosity flags
(`dump_mpi`, `dump_packets`, `dump_grips`): the counters are reset on
entry, so any two contexts agreeing on the three flags — whatever
their counter state — produce identical results. -/
theorem C7_pure_function_amended (L : Limits) (c1 c2 : rnp_dump_ctx_t)
    (src : pgp_source_t)
    (hm : c1.dump_mpi = c2.dump_mpi) (hp : c1.dump_packets = c2.dump_packets)
    (hg : c1.dump_grips = c2.dump_grips) :
    stream_dump_packets L c1 src = stream_dump_packets L c2 src ∧
    stream_dump_packets_json L c1 src = stream_dump_packets_json L c2 src := by
  obtain ⟨m1, p1, g1, l1, s1, f1⟩ := c1
  obtain ⟨m2, p2, g2, l2, s2, f2⟩ := c2
  simp only at hm hp hg
  subst hm hp hg
  exact ⟨rfl, rfl⟩

/-- A context with the default flags but nonzero stale counters. -/
def ctx_stale : rnp_dump_ctx_t :=
  { dump_mpi := false, dump_packets := false, dump_grips := false,
    layers := 5, stream_pkts := 6, failures := 7 }

/-- C7 witness: the amended statement applied to two contexts with the
same flags but different counter states, on the RSA signature input. -/
theorem C7_pure_function_witness :
    stream_dump_packets L32 ctx_stale (plain_src sig_rsa_stream) =
      stream_dump_packets L32 (mk_ctx false false false) (plain_src sig_rsa_stream) ∧
    stream_dump_packets_json L32 ctx_stale (plain_src sig_rsa_stream) =
      stream_dump_packets_json L32 (mk_ctx false false false) (plain_src sig_rsa_stream) :=
  C7_pure_function_amended L32 ctx_stale (mk_ctx false false false)
    (plain_src sig_rsa_stream) rfl rfl rfl

/-- C6: a signature packet whose public-key algorithm is outside the
known set still dumps successfully: the result is success, the header
level fields (version, algorithm) and — for v4+ — the subpacket areas
are all emitted, and the material section is the fixed `unknown
algorithm` stub.  (`parse_material` is external; per the spec an
unknown identifier yields a stub, never a failure, as modelled by
`sig_material_throws`.) -/
theorem C6_unknown_palg_stub (ctx : rnp_dump_ctx_t) (sig : pgp_signature_t)
    (h : sig.palg ∉ known_sig_material_algs) :
    (stream_dump_signature ctx (some sig)).1 = RNP_SUCCESS ∧
    DField.note "unknown algorithm" ∈ (stream_dump_signature ctx (some sig)).2 ∧
    DField.fnum "version" sig.version ∈ (stream_dump_signature ctx (some sig)).2 ∧
    dst_print_palg none sig.palg ∈ (stream_dump_signature ctx (some sig)).2 ∧
    DField.note "signature material:" ∈ (stream_dump_signature ctx (some sig)).2 ∧
    (4 ≤ sig.version →
      DField.note "hashed subpackets:" ∈ (stream_dump_signature ctx (some sig)).2 ∧
      DField.note "unhashed subpackets:" ∈ (stream_dump_signature ctx (some sig)).2) := by
  have hb : known_sig_material_algs.contains sig.palg = false := by
    cases hc : known_sig_material_algs.contains sig.palg
    · rfl
    · exact absurd (List.mem_of_elem_eq_true hc) h
  have h' := h
  simp only [known_sig_material_algs, List.mem_cons, List.not_mem_nil, or_false,
    not_or] at h'
  obtain ⟨h1, h2, h3, h17, h22, h19, h99, h18, h16, h20⟩ := h'
  obtain ⟨v, ty, ct, sgn, palg, halg, subs, lb, mat, mthrow⟩ := sig
  simp only [pgp_signature_t.palg] at hb h h1 h2 h3 h17 h22 h19 h99 h18 h16 h20
  simp [stream_dump_signature, stream_dump_signature_pkt, pgp_signature_t.version,
        pgp_signature_t.palg, dst_print_sig_type, dst_print_time, dst_print_keyid,
        dst_print_palg, dst_print_halg, dst_print_mpi,
        hb, h, h1, h2, h3, h17, h22, h19, h99, h18, h16, h20]

/-- A version-4 signature with the out-of-range algorithm code 101 and
one creation-time subpacket. -/
def sig_unknown_alg : pgp_signature_t :=
  .mk 4 0 0 [] 101 8
    [.mk 2 4 true false [0, 0, 0, 7] (.create 7)] [10, 20] sig_material1 false

/-- C6 witness: the theorem at the concrete out-of-range signature. -/
theorem C6_unknown_palg_witness :
    (stream_dump_signature (mk_ctx false false false) (some sig_unknown_alg)).1 =
      RNP_SUCCESS ∧
    DField.note "unknown algorithm" ∈
      (stream_dump_signature (mk_ctx false false false) (some sig_unknown_alg)).2 ∧
    DField.fnum "version" sig_unknown_alg.version ∈
      (stream_dump_signature (mk_ctx false false false) (some sig_unknown_alg)).2 ∧
    dst_print_palg none sig_unknown_alg.palg ∈
      (stream_dump_signature (mk_ctx false false false) (some sig_unknown_alg)).2 ∧
    DField.note "signature material:" ∈
      (stream_dump_signature (mk_ctx false false false) (some sig_unknown_alg)).2 ∧
    (4 ≤ sig_unknown_alg.version →
      DField.note "hashed subpackets:" ∈
        (stream_dump_signature (mk_ctx false false false) (some sig_unknown_alg)).2 ∧
      DField.note "unhashed subpackets:" ∈
        (stream_dump_signature (mk_ctx false false false) (some sig_unknown_alg)).2) :=
  C6_unknown_palg_stub (mk_ctx false false false) sig_unknown_alg (by decide)

/-- If every field of `out` draws its name from `names`, then
`has_field out n` is false for any `n` outside `names`. -/
theorem has_field_false_of_names (out : List DField) (names : List String)
    (h : ∀ f ∈ out, dfield_name f ∈ names) (n : String) (hn : n ∉ names) :
    has_field out n = false := by
  rw [Bool.eq_false_iff]
  intro hc
  obtain ⟨f, hf, hp⟩ := List.any_eq_true.mp hc
  rw [beq_iff_eq] at hp
  exact hn (hp ▸ h f hf)

/-- Every field of the text-path public-key material section is named
after a public-material component. -/
theorem stream_dump_key_material_names (ctx : rnp_dump_ctx_t) (alg : Nat)
    (mat : pgp_key_material_t) :
    ∀ f ∈ stream_dump_key_material ctx alg mat,
      dfield_name f ∈ ["rsa n", "rsa e", "dsa p", "dsa q", "dsa g", "dsa y",
        "eg p", "eg g", "eg y", "ecc p", "ecc curve", "ecdh p", "ecdh curve",
        "ecdh hash algorithm", "ecdh key wrap algorithm", ""] := by
  intro f hf
  unfold stream_dump_key_material at hf
  split_ifs at hf <;> fin_cases hf <;>
    simp [dst_print_mpi, dst_print_halg, dfield_name]

/-- Every field of the text-path derived-value tail is a key id,
fingerprint, grip, or an in-band failure note. -/
theorem stream_dump_key_derived_names (ctx : rnp_dump_ctx_t) (ver : Nat)
    (kres fres gres : Option (List Nat)) :
    ∀ f ∈ stream_dump_key_derived ctx ver kres fres gres,
      dfield_name f ∈ ["keyid", "fingerprint", "grip", ""] := by
  intro f hf
  unfold stream_dump_key_derived at hf
  rcases List.mem_append.mp hf with h | h <;> clear hf
  · rcases List.mem_append.mp h with h | h
    · cases kres <;> simp_all [dfield_name]
    · split_ifs at h
      · cases fres <;> simp_all [dfield_name]
      · simp at h
  · split_ifs at h
    · cases gres <;> simp_all [dfield_name]
    · simp at h

/-- With S2K usage 0 the text-path secret section reduces to the usage
byte, the v5 lengths, and the cleartext secret data length — no S2K
specifier, no symmetric algorithm, no cipher IV. -/
theorem stream_dump_key_secret_usage0 (ver : Nat) (prot : pgp_key_protection_t)
    (v5s v5sec seclen : Nat) (h0 : prot.s2k.usage = 0) :
    stream_dump_key_secret ver prot v5s v5sec seclen =
      [DField.note "secret key material:", DField.fnum "s2k usage" 0] ++
      (if ver = 5 then [DField.fnum "v5 s2k length" v5s] else []) ++
      (if ver = 5 then [DField.fnum "v5 secret key data length" v5sec] else []) ++
      [DField.fnum "cleartext secret key data" seclen] := by
  simp [stream_dump_key_secret, h0, PGP_S2KU_ENCRYPTED,
        PGP_S2KU_ENCRYPTED_AND_HASHED]

/-- The JSON secret section always carries the `s2k.specifier` field. -/
theorem stream_dump_key_secret_json_has_spec (ver : Nat)
    (prot : pgp_key_protection_t) (v5s v5sec : Nat) :
    has_field (stream_dump_key_secret_json ver prot v5s v5sec)
      "s2k.specifier" = true := by
  simp [stream_dump_key_secret_json, obj_add_s2k_json, has_field, dfield_name]

set_option maxHeartbeats 1000000 in
/-- C9 (amended): for a secret-key packet with S2K usage 0 the text
path reports the cleartext secret material length and emits no S2K
specifier, symmetric-algorithm or cipher-IV field; the JSON path,
however, emits the S2K specifier block unconditionally (though still
no symmetric-algorithm field, and it reports no secret material length
for non-v5 keys). -/
theorem C9_s2k_usage0 (ctx : rnp_dump_ctx_t) (key : pgp_key_pkt_t)
    (hsec : is_secret_key_pkt key.tag = true)
    (h0 : key.sec_protection.s2k.usage = 0) :
    (stream_dump_key ctx (some key)).1 = RNP_SUCCESS ∧
    DField.fnum "cleartext secret key data" key.sec_len ∈
      (stream_dump_key ctx (some key)).2 ∧
    has_field (stream_dump_key ctx (some key)).2 "s2k specifier" = false ∧
    has_field (stream_dump_key ctx (some key)).2 "symmetric algorithm" = false ∧
    has_field (stream_dump_key ctx (some key)).2 "cipher iv" = false ∧
    has_field (stream_dump_key_json ctx (some key)).2 "s2k.specifier" = true := by
  have hsecret := stream_dump_key_secret_usage0 key.version key.sec_protection
    key.v5_s2k_len key.v5_sec_len key.sec_len h0
  have hmem : DField.fnum "cleartext secret key data" key.sec_len ∈
      stream_dump_key_secret key.version key.sec_protection
        key.v5_s2k_len key.v5_sec_len key.sec_len := by
    rw [hsecret]; simp
  have hnames : ∀ n : String,
      n ∉ (["rsa n", "rsa e", "dsa p", "dsa q", "dsa g", "dsa y",
        "eg p", "eg g", "eg y", "ecc p", "ecc curve", "ecdh p", "ecdh curve",
        "ecdh hash algorithm", "ecdh key wrap algorithm", ""] : List String) →
      n ∉ (["keyid", "fingerprint", "grip", ""] : List String) →
      ("version" == n) = false → ("v3 validity days" == n) = false →
      ("creation time" == n) = false → ("public key algorithm" == n) = false →
      ("v5 public key material length" == n) = false →
      ("s2k usage" == n) = false → ("v5 s2k length" == n) = false →
      ("v5 secret key data length" == n) = false →
      ("cleartext secret key data" == n) = false → ("" == n) = false →
      has_field (stream_dump_key ctx (some key)).2 n = false := by
    intro n hm hd h1 h2 h3 h4 h5 h6 h7 h8 h9 h10
    have hmat := has_field_false_of_names _ _
      (stream_dump_key_material_names ctx key.alg key.material) n hm
    have hder := has_field_false_of_names _ _
      (stream_dump_key_derived_names ctx key.version key.keyid_res
        key.fp_res key.grip_res) n hd
    simp only [stream_dump_key, hsec, if_true, hsecret, dst_print_time,
               dst_print_palg, Option.getD]
    simp only [has_field_append, has_field_ite, has_field_cons, has_field_nil,
               dfield_name, hmat, hder, h1, h2, h3, h4, h5, h6, h7, h8, h9, h10]
    simp
  refine ⟨rfl, ?_, ?_, ?_, ?_, ?_⟩
  · simp only [stream_dump_key, hsec, if_true]
    simp [List.mem_append, hmem]
  · exact hnames "s2k specifier" (by decide) (by decide)
      rfl rfl rfl rfl rfl rfl rfl rfl rfl rfl
  · exact hnames "symmetric algorithm" (by decide) (by decide)
      rfl rfl rfl rfl rfl rfl rfl rfl rfl rfl
  · exact hnames "cipher iv" (by decide) (by decide)
      rfl rfl rfl rfl rfl rfl rfl rfl rfl rfl
  · have hj := stream_dump_key_secret_json_has_spec key.version
      key.sec_protection key.v5_s2k_len key.v5_sec_len
    have hhead : has_field (stream_dump_key_json_head ctx key) "s2k.specifier" = true := by
      simp [stream_dump_key_json_head, hsec, has_field_append, has_field_cons,
            has_field_ite, has_field_nil, hj, dfield_name]
    cases hk : key.keyid_res with
    | none => simp [stream_dump_key_json, hk, hhead]
    | some kid =>
      cases hg : ctx.dump_grips with
      | false => simp [stream_dump_key_json, hk, hg, has_field_append, hhead]
      | true =>
        cases hf : key.fp_res with
        | none => simp [stream_dump_key_json, hk, hg, hf, has_field_append, hhead]
        | some fp =>
          cases hgr : key.grip_res with
          | none => simp [stream_dump_key_json, hk, hg, hf, hgr, has_field_append, hhead]
          | some g => simp [stream_dump_key_json, hk, hg, hf, hgr, has_field_append, hhead]

/-- An unprotected S2K block: usage 0, all parameters zero. -/
def s2k_zero : pgp_s2k_t :=
  { usage := 0, specifier := 0, hash_alg := 0, salt := [], iterations := 0,
    gpg_ext_num := 0, gpg_serial_len := 0, gpg_serial := [], experimental := [] }

/-- Key material with every union member a one-byte MPI. -/
def key_mat1 : pgp_key_material_t :=
  { rsa_n := mpi1, rsa_e := mpi1, dsa_p := mpi1, dsa_q := mpi1, dsa_g := mpi1,
    dsa_y := mpi1, eg_p := mpi1, eg_g := mpi1, eg_y := mpi1, ec_p := mpi1,
    ec_curve := 1, ec_kdf_hash_alg := 8, ec_key_wrap_alg := 7 }

/-- A version-4 RSA secret key (tag 5) with S2K usage 0 and 32 bytes of
cleartext secret material. -/
def secret_key0 : pgp_key_pkt_t :=
  { tag := 5, version := 4, creation_time := 0, v3_days := 0, alg := 1,
    v5_pub_len := 0, material := key_mat1,
    sec_protection := { s2k := s2k_zero, symm_alg := 0, iv := [] },
    v5_s2k_len := 0, v5_sec_len := 0, sec_len := 32,
    keyid_res := some [1, 2, 3, 4, 5, 6, 7, 8], fp_res := some [],
    grip_res := some [] }

/-- C9: the claim states no S2K specifier field is emitted for a
usage-0 secret key; the JSON path emits one (`obj_add_s2k_json` is
called unconditionally), as witnessed on a concrete usage-0 key. -/
theorem C9_s2k_usage0_counterexample :
    has_field (stream_dump_key_json (mk_ctx false false false)
      (some secret_key0)).2 "s2k.specifier" = true ∧
    ¬ has_field (stream_dump_key_json (mk_ctx false false false)
      (some secret_key0)).2 "s2k.specifier" = false := by
  have h : has_field (stream_dump_key_json (mk_ctx false false false)
      (some secret_key0)).2 "s2k.specifier" = true := rfl
  exact ⟨h, by simp [h]⟩

/-- C9 witness: the amended statement at the concrete usage-0 key. -/
theorem C9_s2k_usage0_witness :
    (stream_dump_key (mk_ctx false false false) (some secret_key0)).1 = RNP_SUCCESS ∧
    DField.fnum "cleartext secret key data" secret_key0.sec_len ∈
      (stream_dump_key (mk_ctx false false false) (some secret_key0)).2 ∧
    has_field (stream_dump_key (mk_ctx false false false) (some secret_key0)).2
      "s2k specifier" = false ∧
    has_field (stream_dump_key (mk_ctx false false false) (some secret_key0)).2
      "symmetric algorithm" = false ∧
    has_field (stream_dump_key (mk_ctx false false false) (some secret_key0)).2
      "cipher iv" = false ∧
    has_field (stream_dump_key_json (mk_ctx false false false) (some secret_key0)).2
      "s2k.specifier" = true :=
  C9_s2k_usage0 (mk_ctx false false false) secret_key0 rfl rfl

/-- `n` copies of the same packet as a stream. -/
def rep_stream (p : pgp_packet_t) : Nat → PacketList
  | 0 => .nil
  | n + 1 => .cons p (rep_stream p n)

/-- `n` copies of the same per-packet output, concatenated. -/
def rep_out (out : List DField) : Nat → List DField
  | 0 => []
  | n + 1 => out ++ rep_out out n

/-- A signature packet (tag 2) whose parse fails. -/
def sig_fail_pkt : pgp_packet_t :=
  .mk 0 { tag := 2, hdr := [137, 0], hdr_len := 2, pkt_len := 10,
          isPart := false, indeterminate := false } [] (.sigB none)

/-- The text-path output of one failing signature packet under the
`dump_packets` flag `dp`. -/
def sig_fail_out (dp : Bool) : List DField :=
  [DField.header 0 [137, 0] 2 (hdr_len_msg sig_fail_pkt.hdr)] ++
  (if dp then [DField.rawpkt 2 []] else []) ++
  [DField.note "Signature packet", DField.note "failed to parse"]

/-- The loop tail on a failing packet result: count the failure, abort
with the packet's error beyond the threshold, otherwise check the
stream soft stop and continue. -/
theorem finish_err (L : Limits) (ctx : rnp_dump_ctx_t) (rest : PacketList)
    (acc : List DField) (ret : Nat) (hret : ret ≠ RNP_SUCCESS) :
    stream_dump_packets_raw_finish L ctx rest acc ret =
      (if L.MAXIMUM_ERROR_PKTS < ctx.failures + 1 then
        (ret, { ctx with failures := ctx.failures + 1 }, acc)
      else if L.MAXIMUM_STREAM_PKTS < ctx.stream_pkts then
        (RNP_SUCCESS, { ctx with failures := ctx.failures + 1 },
         acc ++ [DField.note ":too many OpenPGP stream packets, stopping."])
      else
        ((stream_dump_packets_raw_loop L { ctx with failures := ctx.failures + 1 } rest).1,
         (stream_dump_packets_raw_loop L { ctx with failures := ctx.failures + 1 } rest).2.1,
         acc ++ (stream_dump_packets_raw_loop L
           { ctx with failures := ctx.failures + 1 } rest).2.2)) := by
  unfold stream_dump_packets_raw_finish
  simp only [hret, if_true, ite_true, decide_eq_true_eq]
  split <;> simp_all

/-- The loop tail on a successful packet result: no failure counting,
just the stream soft stop check and the continuation. -/
theorem finish_ok (L : Limits) (ctx : rnp_dump_ctx_t) (rest : PacketList)
    (acc : List DField) :
    stream_dump_packets_raw_finish L ctx rest acc RNP_SUCCESS =
      (if L.MAXIMUM_STREAM_PKTS < ctx.stream_pkts then
        (RNP_SUCCESS, ctx,
         acc ++ [DField.note ":too many OpenPGP stream packets, stopping."])
      else
        ((stream_dump_packets_raw_loop L ctx rest).1,
         (stream_dump_packets_raw_loop L ctx rest).2.1,
         acc ++ (stream_dump_packets_raw_loop L ctx rest).2.2)) := by
  unfold stream_dump_packets_raw_finish
  simp

/-- One loop step on a failing signature packet. -/
theorem sigfail_step (L : Limits) (ctx : rnp_dump_ctx_t) (rest : PacketList) :
    stream_dump_packets_raw_loop L ctx (.cons sig_fail_pkt rest) =
      stream_dump_packets_raw_finish L ctx rest
        (sig_fail_out ctx.dump_packets) RNP_ERROR_GENERIC := by
  obtain ⟨m, p, g, l, s, f⟩ := ctx
  cases p <;>
    simp [stream_dump_packets_raw_loop, sig_fail_pkt, stream_dump_signature,
          sig_fail_out, pgp_packet_t.hdr]

/-- Walking `n` failing signature packets from failure count `f`: all
are processed (failure counter reaching `f + n`) while the count stays
within `MAXIMUM_ERROR_PKTS`; the packet that pushes it beyond aborts
the walk with the packet's error, having processed exactly
`MAXIMUM_ERROR_PKTS + 1 - f` packets. -/
theorem sigfail_loop_text (L : Limits) (m p g : Bool) (l : Nat) :
    ∀ n f, f ≤ L.MAXIMUM_ERROR_PKTS →
    stream_dump_packets_raw_loop L
      ⟨m, p, g, l, 0, f⟩ (rep_stream sig_fail_pkt n) =
      (if f + n ≤ L.MAXIMUM_ERROR_PKTS then
        (RNP_SUCCESS, ⟨m, p, g, l, 0, f + n⟩, rep_out (sig_fail_out p) n)
      else
        (RNP_ERROR_GENERIC, ⟨m, p, g, l, 0, L.MAXIMUM_ERROR_PKTS + 1⟩,
         rep_out (sig_fail_out p) (L.MAXIMUM_ERROR_PKTS + 1 - f))) := by
  intro n
  induction n with
  | zero =>
    intro f hf
    simp [rep_stream, rep_out, stream_dump_packets_raw_loop, hf]
  | succ n ih =>
    intro f hf
    rw [rep_stream, sigfail_step, finish_err L _ _ _ _ (by decide)]
    by_cases habort : L.MAXIMUM_ERROR_PKTS < f + 1
    · have hcond : ¬ (f + (n + 1) ≤ L.MAXIMUM_ERROR_PKTS) := by omega
      have hf1 : f = L.MAXIMUM_ERROR_PKTS := by omega
      have hsub : L.MAXIMUM_ERROR_PKTS + 1 - f = 1 := by omega
      simp [habort, hcond, hsub, rep_out, hf1]
    · have hstep : f + 1 ≤ L.MAXIMUM_ERROR_PKTS := by omega
      have hrec := ih (f + 1) hstep
      have hns : ¬ (L.MAXIMUM_STREAM_PKTS < 0) := by omega
      rw [if_neg habort, if_neg hns, hrec]
      by_cases hcond : f + 1 + n ≤ L.MAXIMUM_ERROR_PKTS
      · have hcond' : f + (n + 1) ≤ L.MAXIMUM_ERROR_PKTS := by omega
        have harith : f + 1 + n = f + (n + 1) := by omega
        simp [hcond, hcond', rep_out, harith]
      · have hcond' : ¬ (f + (n + 1) ≤ L.MAXIMUM_ERROR_PKTS) := by omega
        have hsub : L.MAXIMUM_ERROR_PKTS + 1 - f =
            (L.MAXIMUM_ERROR_PKTS + 1 - (f + 1)) + 1 := by omega
        simp [hcond, hcond', hsub, rep_out]

/-- The JSON loop tail on a failing packet result: count the failure;
beyond the threshold abort with the packet's error and the packet
object discarded; otherwise append the packet and check the stream
soft stop. -/
theorem finish_err_json (L : Limits) (ctx : rnp_dump_ctx_t) (rest : PacketList)
    (pktFields : List DField) (ret : Nat) (hret : ret ≠ RNP_SUCCESS) :
    stream_dump_raw_packets_json_finish L ctx rest pktFields ret =
      (if L.MAXIMUM_ERROR_PKTS < ctx.failures + 1 then
        (ret, { ctx with failures := ctx.failures + 1 }, [])
      else if L.MAXIMUM_STREAM_PKTS < ctx.stream_pkts then
        (RNP_SUCCESS, { ctx with failures := ctx.failures + 1 }, pktFields)
      else
        ((stream_dump_raw_packets_json_loop L
            { ctx with failures := ctx.failures + 1 } rest).1,
         (stream_dump_raw_packets_json_loop L
            { ctx with failures := ctx.failures + 1 } rest).2.1,
         pktFields ++ (stream_dump_raw_packets_json_loop L
            { ctx with failures := ctx.failures + 1 } rest).2.2)) := by
  unfold stream_dump_raw_packets_json_finish
  simp only [hret, if_true, ite_true, decide_eq_true_eq]
  split <;> simp_all

/-- The JSON loop tail on a successful packet result. -/
theorem finish_ok_json (L : Limits) (ctx : rnp_dump_ctx_t) (rest : PacketList)
    (pktFields : List DField) :
    stream_dump_raw_packets_json_finish L ctx rest pktFields RNP_SUCCESS =
      (if L.MAXIMUM_STREAM_PKTS < ctx.stream_pkts then
        (RNP_SUCCESS, ctx, pktFields)
      else
        ((stream_dump_raw_packets_json_loop L ctx rest).1,
         (stream_dump_raw_packets_json_loop L ctx rest).2.1,
         pktFields ++ (stream_dump_raw_packets_json_loop L ctx rest).2.2)) := by
  unfold stream_dump_raw_packets_json_finish
  simp

/-- The JSON-path fields of one failing signature packet (header
object only — the failed parse contributes nothing). -/
def sig_fail_out_json (dp : Bool) : List DField :=
  stream_dump_hdr_json 0 sig_fail_pkt.hdr ++
  (if dp then [DField.fhex "raw" []] else [])

/-- One JSON loop step on a failing signature packet. -/
theorem sigfail_step_json (L : Limits) (ctx : rnp_dump_ctx_t)
    (rest : PacketList) :
    stream_dump_raw_packets_json_loop L ctx (.cons sig_fail_pkt rest) =
      stream_dump_raw_packets_json_finish L ctx rest
        (sig_fail_out_json ctx.dump_packets) RNP_ERROR_GENERIC := by
  obtain ⟨m, p, g, l, s, f⟩ := ctx
  cases p <;>
    simp [stream_dump_raw_packets_json_loop, sig_fail_pkt,
          stream_dump_signature_json, sig_fail_out_json, pgp_packet_t.hdr]

/-- Walking `n` failing signature packets (JSON): all are processed
while the failure count stays within bounds; the packet that pushes it
beyond aborts with the packet's error, its packet object discarded, so
`MAXIMUM_ERROR_PKTS + 1 - f` packets are processed but only
`MAXIMUM_ERROR_PKTS - f` appear in the array. -/
theorem sigfail_loop_json (L : Limits) (m p g : Bool) (l : Nat) :
    ∀ n f, f ≤ L.MAXIMUM_ERROR_PKTS →
    stream_dump_raw_packets_json_loop L
      ⟨m, p, g, l, 0, f⟩ (rep_stream sig_fail_pkt n) =
      (if f + n ≤ L.MAXIMUM_ERROR_PKTS then
        (RNP_SUCCESS, ⟨m, p, g, l, 0, f + n⟩, rep_out (sig_fail_out_json p) n)
      else
        (RNP_ERROR_GENERIC, ⟨m, p, g, l, 0, L.MAXIMUM_ERROR_PKTS + 1⟩,
         rep_out (sig_fail_out_json p) (L.MAXIMUM_ERROR_PKTS - f))) := by
  intro n
  induction n with
  | zero =>
    intro f hf
    simp [rep_stream, rep_out, stream_dump_raw_packets_json_loop, hf]
  | succ n ih =>
    intro f hf
    rw [rep_stream, sigfail_step_json, finish_err_json L _ _ _ _ (by decide)]
    by_cases habort : L.MAXIMUM_ERROR_PKTS < f + 1
    · have hcond : ¬ (f + (n + 1) ≤ L.MAXIMUM_ERROR_PKTS) := by omega
      have hsub : L.MAXIMUM_ERROR_PKTS - f = 0 := by omega
      have hf1 : f = L.MAXIMUM_ERROR_PKTS := by omega
      simp [habort, hcond, hsub, rep_out, hf1]
    · have hstep : f + 1 ≤ L.MAXIMUM_ERROR_PKTS := by omega
      have hrec := ih (f + 1) hstep
      have hns : ¬ (L.MAXIMUM_STREAM_PKTS < 0) := by omega
      rw [if_neg habort, if_neg hns, hrec]
      by_cases hcond : f + 1 + n ≤ L.MAXIMUM_ERROR_PKTS
      · have hcond' : f + (n + 1) ≤ L.MAXIMUM_ERROR_PKTS := by omega
        have harith : f + 1 + n = f + (n + 1) := by omega
        simp [hcond, hcond', rep_out, harith]
      · have hcond' : ¬ (f + (n + 1) ≤ L.MAXIMUM_ERROR_PKTS) := by omega
        have hsub : L.MAXIMUM_ERROR_PKTS - f =
            (L.MAXIMUM_ERROR_PKTS - (f + 1)) + 1 := by omega
        simp [hcond, hcond', hsub, rep_out]

/-- C4: each per-packet decoder failure increments the failure counter
and the walk continues to the next packet while the counter is at most
`MAXIMUM_ERROR_PKTS` (a stream of `n ≤ MAXIMUM_ERROR_PKTS` failing
packets is processed in full and the walk ends successfully with `n`
counted failures); as soon as the counter exceeds the threshold, the
walk aborts and surfaces the failing packet's error result, having
processed exactly `MAXIMUM_ERROR_PKTS + 1` packets — in both the text
and the JSON path. -/
theorem C4_failure_threshold (L : Limits) (m p g : Bool) (n : Nat)
    (hnest : 1 ≤ L.MAXIMUM_NESTING_LEVEL) (hn : 1 ≤ n) :
    stream_dump_packets_raw L (mk_ctx m p g) (rep_stream sig_fail_pkt n) =
      (if n ≤ L.MAXIMUM_ERROR_PKTS then
        (RNP_SUCCESS, ⟨m, p, g, 1, 0, n⟩, rep_out (sig_fail_out p) n)
      else
        (RNP_ERROR_GENERIC, ⟨m, p, g, 1, 0, L.MAXIMUM_ERROR_PKTS + 1⟩,
         rep_out (sig_fail_out p) (L.MAXIMUM_ERROR_PKTS + 1))) ∧
    stream_dump_raw_packets_json L (mk_ctx m p g) (rep_stream sig_fail_pkt n) =
      (if n ≤ L.MAXIMUM_ERROR_PKTS then
        (RNP_SUCCESS, ⟨m, p, g, 1, 0, n⟩, rep_out (sig_fail_out_json p) n)
      else
        (RNP_ERROR_GENERIC, ⟨m, p, g, 1, 0, L.MAXIMUM_ERROR_PKTS + 1⟩,
         rep_out (sig_fail_out_json p) L.MAXIMUM_ERROR_PKTS)) := by
  obtain ⟨k, rfl⟩ : ∃ k, n = k + 1 := ⟨n - 1, by omega⟩
  have hguard : ¬ (L.MAXIMUM_NESTING_LEVEL < 0 + 1) := by omega
  constructor
  · rw [rep_stream]
    simp only [stream_dump_packets_raw, mk_ctx]
    rw [if_neg hguard]
    have := sigfail_loop_text L m p g 1 (k + 1) 0 (by omega)
    rw [rep_stream] at this
    simpa using this
  · rw [rep_stream]
    simp only [stream_dump_raw_packets_json, mk_ctx]
    rw [if_neg hguard]
    have := sigfail_loop_json L m p g 1 (k + 1) 0 (by omega)
    rw [rep_stream] at this
    simpa using this

/-- C4 witness: the theorem at limits with `MAXIMUM_ERROR_PKTS = 2`
and three failing packets. -/
theorem C4_failure_threshold_witness :
    stream_dump_packets_raw ⟨4, 4, 2⟩ (mk_ctx false false false)
      (rep_stream sig_fail_pkt 3) =
      (if 3 ≤ (⟨4, 4, 2⟩ : Limits).MAXIMUM_ERROR_PKTS then
        (RNP_SUCCESS, ⟨false, false, false, 1, 0, 3⟩,
         rep_out (sig_fail_out false) 3)
      else
        (RNP_ERROR_GENERIC, ⟨false, false, false, 1, 0,
           (⟨4, 4, 2⟩ : Limits).MAXIMUM_ERROR_PKTS + 1⟩,
         rep_out (sig_fail_out false) ((⟨4, 4, 2⟩ : Limits).MAXIMUM_ERROR_PKTS + 1))) ∧
    stream_dump_raw_packets_json ⟨4, 4, 2⟩ (mk_ctx false false false)
      (rep_stream sig_fail_pkt 3) =
      (if 3 ≤ (⟨4, 4, 2⟩ : Limits).MAXIMUM_ERROR_PKTS then
        (RNP_SUCCESS, ⟨false, false, false, 1, 0, 3⟩,
         rep_out (sig_fail_out_json false) 3)
      else
        (RNP_ERROR_GENERIC, ⟨false, false, false, 1, 0,
           (⟨4, 4, 2⟩ : Limits).MAXIMUM_ERROR_PKTS + 1⟩,
         rep_out (sig_fail_out_json false) (⟨4, 4, 2⟩ : Limits).MAXIMUM_ERROR_PKTS)) :=
  C4_failure_threshold ⟨4, 4, 2⟩ false false false 3 (by decide) (by decide)

/-- A packet with the given tag whose body is skipped successfully
(used for Trust/MDC and for unhandled tags). -/
def skip_pkt (t : Nat) : pgp_packet_t :=
  .mk 0 { tag := t, hdr := [176, 0], hdr_len := 2, pkt_len := 0,
          isPart := false, indeterminate := false } [] (.skipB true)

/-- Text output of one unknown-tag packet. -/
def skip_unknown_out (t : Nat) (dp : Bool) : List DField :=
  [DField.header 0 [176, 0] t (hdr_len_msg (skip_pkt t).hdr)] ++
  (if dp then [DField.rawpkt 2 []] else []) ++
  [DField.note ("Skipping Unknown pkt: " ++ toString t)]

/-- Text output of one Trust / MDC packet. -/
def skip_trust_out (t : Nat) (dp : Bool) : List DField :=
  [DField.header 0 [176, 0] t (hdr_len_msg (skip_pkt t).hdr)] ++
  (if dp then [DField.rawpkt 2 []] else []) ++
  [DField.note ("Skipping unhandled pkt: " ++ toString t)]

/-- JSON output of one skipped packet (header object only). -/
def skip_out_json (t : Nat) (dp : Bool) : List DField :=
  stream_dump_hdr_json 0 (skip_pkt t).hdr ++
  (if dp then [DField.fhex "raw" []] else [])

/-- One text loop step on an unknown-tag packet: the failure counter
is incremented even though the skip succeeded, and overflowing it
stops the walk — with `RNP_SUCCESS` as the result. -/
theorem unknown_step_text (L : Limits) (ctx : rnp_dump_ctx_t)
    (rest : PacketList) (t : Nat) (ht : ¬ (t = 12 ∨ t = 19)) :
    stream_dump_packets_raw_loop L ctx (.cons (skip_pkt t) rest) =
      (if L.MAXIMUM_ERROR_PKTS < ctx.failures + 1 then
        (RNP_SUCCESS, { ctx with failures := ctx.failures + 1 },
         skip_unknown_out t ctx.dump_packets)
      else
        stream_dump_packets_raw_finish L { ctx with failures := ctx.failures + 1 }
          rest (skip_unknown_out t ctx.dump_packets) RNP_SUCCESS) := by
  obtain ⟨m, p, g, l, s, f⟩ := ctx
  simp only [not_or] at ht
  cases p <;>
    simp [stream_dump_packets_raw_loop, skip_pkt, skip_unknown_out,
          pgp_packet_t.hdr, ht.1, ht.2]

/-- One text loop step on a Trust / MDC packet: no failure counting. -/
theorem trust_step_text (L : Limits) (ctx : rnp_dump_ctx_t)
    (rest : PacketList) (t : Nat) (ht : t = 12 ∨ t = 19) :
    stream_dump_packets_raw_loop L ctx (.cons (skip_pkt t) rest) =
      stream_dump_packets_raw_finish L ctx rest
        (skip_trust_out t ctx.dump_packets) RNP_SUCCESS := by
  obtain ⟨m, p, g, l, s, f⟩ := ctx
  rcases ht with ht | ht <;> subst ht <;> cases p <;>
    simp [stream_dump_packets_raw_loop, skip_pkt, skip_trust_out,
          pgp_packet_t.hdr]

/-- One JSON loop step on an unknown-tag packet: overflowing the
failure counter returns `RNP_ERROR_BAD_FORMAT` with the packet object
discarded. -/
theorem unknown_step_json (L : Limits) (ctx : rnp_dump_ctx_t)
    (rest : PacketList) (t : Nat) (ht : ¬ (t = 12 ∨ t = 19)) :
    stream_dump_raw_packets_json_loop L ctx (.cons (skip_pkt t) rest) =
      (if L.MAXIMUM_ERROR_PKTS < ctx.failures + 1 then
        (RNP_ERROR_BAD_FORMAT, { ctx with failures := ctx.failures + 1 }, [])
      else
        stream_dump_raw_packets_json_finish L
          { ctx with failures := ctx.failures + 1 } rest
          (skip_out_json t ctx.dump_packets) RNP_SUCCESS) := by
  obtain ⟨m, p, g, l, s, f⟩ := ctx
  simp only [not_or] at ht
  cases p <;>
    simp [stream_dump_raw_packets_json_loop, skip_pkt, skip_out_json,
          pgp_packet_t.hdr, ht.1, ht.2]

/-- One JSON loop step on a Trust / MDC packet. -/
theorem trust_step_json (L : Limits) (ctx : rnp_dump_ctx_t)
    (rest : PacketList) (t : Nat) (ht : t = 12 ∨ t = 19) :
    stream_dump_raw_packets_json_loop L ctx (.cons (skip_pkt t) rest) =
      stream_dump_raw_packets_json_finish L ctx rest
        (skip_out_json t ctx.dump_packets) RNP_SUCCESS := by
  obtain ⟨m, p, g, l, s, f⟩ := ctx
  rcases ht with ht | ht <;> subst ht <;> cases p <;>
    simp [stream_dump_raw_packets_json_loop, skip_pkt, skip_out_json,
          pgp_packet_t.hdr]

/-- Walking `n` unknown-tag packets (text): the failure counter
increments on every successful skip; once it would exceed the bound
the walk stops — with a successful result in the text path. -/
theorem unknown_loop_text (L : Limits) (m p g : Bool) (l t : Nat)
    (ht : ¬ (t = 12 ∨ t = 19)) :
    ∀ n f, f ≤ L.MAXIMUM_ERROR_PKTS →
    stream_dump_packets_raw_loop L
      ⟨m, p, g, l, 0, f⟩ (rep_stream (skip_pkt t) n) =
      (if f + n ≤ L.MAXIMUM_ERROR_PKTS then
        (RNP_SUCCESS, ⟨m, p, g, l, 0, f + n⟩, rep_out (skip_unknown_out t p) n)
      else
        (RNP_SUCCESS, ⟨m, p, g, l, 0, L.MAXIMUM_ERROR_PKTS + 1⟩,
         rep_out (skip_unknown_out t p) (L.MAXIMUM_ERROR_PKTS + 1 - f))) := by
  intro n
  induction n with
  | zero =>
    intro f hf
    simp [rep_stream, rep_out, stream_dump_packets_raw_loop, hf]
  | succ n ih =>
    intro f hf
    rw [rep_stream, unknown_step_text L _ _ t ht]
    by_cases habort : L.MAXIMUM_ERROR_PKTS < f + 1
    · have hcond : ¬ (f + (n + 1) ≤ L.MAXIMUM_ERROR_PKTS) := by omega
      have hsub : L.MAXIMUM_ERROR_PKTS + 1 - f = 1 := by omega
      have hf1 : f = L.MAXIMUM_ERROR_PKTS := by omega
      simp [habort, hcond, hsub, rep_out, hf1]
    · have hstep : f + 1 ≤ L.MAXIMUM_ERROR_PKTS := by omega
      have hrec := ih (f + 1) hstep
      have hns : ¬ (L.MAXIMUM_STREAM_PKTS < 0) := by omega
      rw [if_neg habort, finish_ok, if_neg hns, hrec]
      by_cases hcond : f + 1 + n ≤ L.MAXIMUM_ERROR_PKTS
      · have hcond' : f + (n + 1) ≤ L.MAXIMUM_ERROR_PKTS := by omega
        have harith : f + 1 + n = f + (n + 1) := by omega
        simp [hcond, hcond', rep_out, harith]
      · have hcond' : ¬ (f + (n + 1) ≤ L.MAXIMUM_ERROR_PKTS) := by omega
        have hsub : L.MAXIMUM_ERROR_PKTS + 1 - f =
            (L.MAXIMUM_ERROR_PKTS + 1 - (f + 1)) + 1 := by omega
        simp [hcond, hcond', hsub, rep_out]

/-- Walking `n` unknown-tag packets (JSON): as in the text path, but
overflow aborts with `RNP_ERROR_BAD_FORMAT` and the final packet
object discarded. -/
theorem unknown_loop_json (L : Limits) (m p g : Bool) (l t : Nat)
    (ht : ¬ (t = 12 ∨ t = 19)) :
    ∀ n f, f ≤ L.MAXIMUM_ERROR_PKTS →
    stream_dump_raw_packets_json_loop L
      ⟨m, p, g, l, 0, f⟩ (rep_stream (skip_pkt t) n) =
      (if f + n ≤ L.MAXIMUM_ERROR_PKTS then
        (RNP_SUCCESS, ⟨m, p, g, l, 0, f + n⟩, rep_out (skip_out_json t p) n)
      else
        (RNP_ERROR_BAD_FORMAT, ⟨m, p, g, l, 0, L.MAXIMUM_ERROR_PKTS + 1⟩,
         rep_out (skip_out_json t p) (L.MAXIMUM_ERROR_PKTS - f))) := by
  intro n
  induction n with
  | zero =>
    intro f hf
    simp [rep_stream, rep_out, stream_dump_raw_packets_json_loop, hf]
  | succ n ih =>
    intro f hf
    rw [rep_stream, unknown_step_json L _ _ t ht]
    by_cases habort : L.MAXIMUM_ERROR_PKTS < f + 1
    · have hcond : ¬ (f + (n + 1) ≤ L.MAXIMUM_ERROR_PKTS) := by omega
      have hsub : L.MAXIMUM_ERROR_PKTS - f = 0 := by omega
      have hf1 : f = L.MAXIMUM_ERROR_PKTS := by omega
      simp [habort, hcond, hsub, rep_out, hf1]
    · have hstep : f + 1 ≤ L.MAXIMUM_ERROR_PKTS := by omega
      have hrec := ih (f + 1) hstep
      have hns : ¬ (L.MAXIMUM_STREAM_PKTS < 0) := by omega
      rw [if_neg habort, finish_ok_json, if_neg hns, hrec]
      by_cases hcond : f + 1 + n ≤ L.MAXIMUM_ERROR_PKTS
      · have hcond' : f + (n + 1) ≤ L.MAXIMUM_ERROR_PKTS := by omega
        have harith : f + 1 + n = f + (n + 1) := by omega
        simp [hcond, hcond', rep_out, harith]
      · have hcond' : ¬ (f + (n + 1) ≤ L.MAXIMUM_ERROR_PKTS) := by omega
        have hsub : L.MAXIMUM_ERROR_PKTS - f =
            (L.MAXIMUM_ERROR_PKTS - (f + 1)) + 1 := by omega
        simp [hcond, hcond', hsub, rep_out]

/-- Walking `n` Trust / MDC packets leaves the failure counter
untouched and processes every packet, in either path. -/
theorem trust_loop (L : Limits) (m p g : Bool) (l t : Nat)
    (ht : t = 12 ∨ t = 19) :
    ∀ n f,
    stream_dump_packets_raw_loop L
      ⟨m, p, g, l, 0, f⟩ (rep_stream (skip_pkt t) n) =
      (RNP_SUCCESS, ⟨m, p, g, l, 0, f⟩, rep_out (skip_trust_out t p) n) ∧
    stream_dump_raw_packets_json_loop L
      ⟨m, p, g, l, 0, f⟩ (rep_stream (skip_pkt t) n) =
      (RNP_SUCCESS, ⟨m, p, g, l, 0, f⟩, rep_out (skip_out_json t p) n) := by
  intro n
  induction n with
  | zero =>
    intro f
    constructor <;>
      simp [rep_stream, rep_out, stream_dump_packets_raw_loop,
            stream_dump_raw_packets_json_loop]
  | succ n ih =>
    intro f
    have hns : ¬ (L.MAXIMUM_STREAM_PKTS < 0) := by omega
    constructor
    · rw [rep_stream, trust_step_text L _ _ t ht, finish_ok, if_neg hns,
         (ih f).1]
      simp [rep_out]
    · rw [rep_stream, trust_step_json L _ _ t ht, finish_ok_json, if_neg hns,
         (ih f).2]
      simp [rep_out]

/-- C10: unknown-tag packets are skipped with the failure counter
incremented even when the skip succeeds, so more than
`MAXIMUM_ERROR_PKTS` of them stop the walk after exactly
`MAXIMUM_ERROR_PKTS + 1` packets (the text path returning success, the
JSON path `RNP_ERROR_BAD_FORMAT`), while `n` within the bound are all
processed with `n` counted failures; Trust (12) and MDC (19) packets
are skipped without touching the failure counter in either path. -/
theorem C10_unknown_and_trust_skip (L : Limits) (m p g : Bool)
    (t t' n k : Nat) (hnest : 1 ≤ L.MAXIMUM_NESTING_LEVEL)
    (ht : ¬ (t = 12 ∨ t = 19)) (ht' : t' = 12 ∨ t' = 19)
    (hn : 1 ≤ n) (hk : 1 ≤ k) :
    stream_dump_packets_raw L (mk_ctx m p g) (rep_stream (skip_pkt t) n) =
      (if n ≤ L.MAXIMUM_ERROR_PKTS then
        (RNP_SUCCESS, ⟨m, p, g, 1, 0, n⟩, rep_out (skip_unknown_out t p) n)
      else
        (RNP_SUCCESS, ⟨m, p, g, 1, 0, L.MAXIMUM_ERROR_PKTS + 1⟩,
         rep_out (skip_unknown_out t p) (L.MAXIMUM_ERROR_PKTS + 1))) ∧
    stream_dump_raw_packets_json L (mk_ctx m p g) (rep_stream (skip_pkt t) n) =
      (if n ≤ L.MAXIMUM_ERROR_PKTS then
        (RNP_SUCCESS, ⟨m, p, g, 1, 0, n⟩, rep_out (skip_out_json t p) n)
      else
        (RNP_ERROR_BAD_FORMAT, ⟨m, p, g, 1, 0, L.MAXIMUM_ERROR_PKTS + 1⟩,
         rep_out (skip_out_json t p) L.MAXIMUM_ERROR_PKTS)) ∧
    stream_dump_packets_raw L (mk_ctx m p g) (rep_stream (skip_pkt t') k) =
      (RNP_SUCCESS, ⟨m, p, g, 1, 0, 0⟩, rep_out (skip_trust_out t' p) k) ∧
    stream_dump_raw_packets_json L (mk_ctx m p g) (rep_stream (skip_pkt t') k) =
      (RNP_SUCCESS, ⟨m, p, g, 1, 0, 0⟩, rep_out (skip_out_json t' p) k) := by
  have hguard : ¬ (L.MAXIMUM_NESTING_LEVEL < 0 + 1) := by omega
  obtain ⟨n', rfl⟩ : ∃ n', n = n' + 1 := ⟨n - 1, by omega⟩
  obtain ⟨k', rfl⟩ : ∃ k', k = k' + 1 := ⟨k - 1, by omega⟩
  refine ⟨?_, ?_, ?_, ?_⟩
  · rw [rep_stream]
    simp only [stream_dump_packets_raw, mk_ctx]
    rw [if_neg hguard]
    have := unknown_loop_text L m p g 1 t ht (n' + 1) 0 (by omega)
    rw [rep_stream] at this
    simpa using this
  · rw [rep_stream]
    simp only [stream_dump_raw_packets_json, mk_ctx]
    rw [if_neg hguard]
    have := unknown_loop_json L m p g 1 t ht (n' + 1) 0 (by omega)
    rw [rep_stream] at this
    simpa using this
  · rw [rep_stream]
    simp only [stream_dump_packets_raw, mk_ctx]
    rw [if_neg hguard]
    have := (trust_loop L m p g 1 t' ht' (k' + 1) 0).1
    rw [rep_stream] at this
    simpa using this
  · rw [rep_stream]
    simp only [stream_dump_raw_packets_json, mk_ctx]
    rw [if_neg hguard]
    have := (trust_loop L m p g 1 t' ht' (k' + 1) 0).2
    rw [rep_stream] at this
    simpa using this

/-- C10 witness: tag 63 with `MAXIMUM_ERROR_PKTS = 2` and three
packets, plus two Trust packets. -/
theorem C10_unknown_and_trust_skip_witness :
    stream_dump_packets_raw ⟨4, 4, 2⟩ (mk_ctx false false false)
      (rep_stream (skip_pkt 63) 3) =
      (if 3 ≤ (⟨4, 4, 2⟩ : Limits).MAXIMUM_ERROR_PKTS then
        (RNP_SUCCESS, ⟨false, false, false, 1, 0, 3⟩,
         rep_out (skip_unknown_out 63 false) 3)
      else
        (RNP_SUCCESS, ⟨false, false, false, 1, 0,
           (⟨4, 4, 2⟩ : Limits).MAXIMUM_ERROR_PKTS + 1⟩,
         rep_out (skip_unknown_out 63 false)
           ((⟨4, 4, 2⟩ : Limits).MAXIMUM_ERROR_PKTS + 1))) ∧
    stream_dump_raw_packets_json ⟨4, 4, 2⟩ (mk_ctx false false false)
      (rep_stream (skip_pkt 63) 3) =
      (if 3 ≤ (⟨4, 4, 2⟩ : Limits).MAXIMUM_ERROR_PKTS then
        (RNP_SUCCESS, ⟨false, false, false, 1, 0, 3⟩,
         rep_out (skip_out_json 63 false) 3)
      else
        (RNP_ERROR_BAD_FORMAT, ⟨false, false, false, 1, 0,
           (⟨4, 4, 2⟩ : Limits).MAXIMUM_ERROR_PKTS + 1⟩,
         rep_out (skip_out_json 63 false) (⟨4, 4, 2⟩ : Limits).MAXIMUM_ERROR_PKTS)) ∧
    stream_dump_packets_raw ⟨4, 4, 2⟩ (mk_ctx false false false)
      (rep_stream (skip_pkt 12) 2) =
      (RNP_SUCCESS, ⟨false, false, false, 1, 0, 0⟩,
       rep_out (skip_trust_out 12 false) 2) ∧
    stream_dump_raw_packets_json ⟨4, 4, 2⟩ (mk_ctx false false false)
      (rep_stream (skip_pkt 12) 2) =
      (RNP_SUCCESS, ⟨false, false, false, 1, 0, 0⟩,
       rep_out (skip_out_json 12 false) 2) :=
  C10_unknown_and_trust_skip ⟨4, 4, 2⟩ false false false 63 12 3 2
    (by decide) (by decide) (by decide) (by decide) (by decide)

/-- A parsed literal-data header with 7 drained body bytes. -/
def lit1 : lit_dump_t :=
  { format := 98, fname := "a", fname_len := 1, timestamp := 5,
    readb := 7, read_ok := true }

/-- A literal-data packet (tag 11) that decodes to `lit1`. -/
def lit_pkt : pgp_packet_t :=
  .mk 0 { tag := 11, hdr := [203, 9], hdr_len := 2, pkt_len := 9,
          isPart := false, indeterminate := false } [] (.litB (some lit1))

/-- Text output of one `lit_pkt`. -/
def lit_out (dp : Bool) : List DField :=
  [DField.header 0 [203, 9] 11 (hdr_len_msg lit_pkt.hdr)] ++
  (if dp then [DField.rawpkt 2 []] else []) ++
  [DField.note "Literal data packet", DField.fnum "data format" 98,
   DField.fstr "filename" "a", DField.fnum "filename length" 1,
   DField.fnum "timestamp" 5, DField.fnum "data bytes" 7]

/-- JSON output of one `lit_pkt`. -/
def lit_out_json (dp : Bool) : List DField :=
  stream_dump_hdr_json 0 lit_pkt.hdr ++
  (if dp then [DField.fhex "raw" []] else []) ++
  [DField.fnum "format" 98, DField.fstr "filename" "a",
   DField.fnum "timestamp" 5, DField.fnum "datalen" 7]

/-- One text loop step on a literal packet: the stream counter is
incremented before the packet is dumped. -/
theorem lit_step_text (L : Limits) (ctx : rnp_dump_ctx_t) (rest : PacketList) :
    stream_dump_packets_raw_loop L ctx (.cons lit_pkt rest) =
      stream_dump_packets_raw_finish L
        { ctx with stream_pkts := ctx.stream_pkts + 1 } rest
        (lit_out ctx.dump_packets) RNP_SUCCESS := by
  obtain ⟨m, p, g, l, s, f⟩ := ctx
  cases p <;>
    simp [stream_dump_packets_raw_loop, lit_pkt, lit1, stream_dump_literal,
          lit_out, pgp_packet_t.hdr, dst_print_time]

/-- One JSON loop step on a literal packet. -/
theorem lit_step_json (L : Limits) (ctx : rnp_dump_ctx_t) (rest : PacketList) :
    stream_dump_raw_packets_json_loop L ctx (.cons lit_pkt rest) =
      stream_dump_raw_packets_json_finish L
        { ctx with stream_pkts := ctx.stream_pkts + 1 } rest
        (lit_out_json ctx.dump_packets) RNP_SUCCESS := by
  obtain ⟨m, p, g, l, s, f⟩ := ctx
  cases p <;>
    simp [stream_dump_raw_packets_json_loop, lit_pkt, lit1,
          stream_dump_literal_json, lit_out_json, pgp_packet_t.hdr]

/-- Walking `n` literal packets from stream count `s` (text): within
the bound all are processed; the packet that pushes the counter beyond
it is still dumped in full, then the walk stops successfully with a
diagnostic note. -/
theorem lit_loop_text (L : Limits) (m p g : Bool) (l : Nat) :
    ∀ n s, s ≤ L.MAXIMUM_STREAM_PKTS →
    stream_dump_packets_raw_loop L
      ⟨m, p, g, l, s, 0⟩ (rep_stream lit_pkt n) =
      (if s + n ≤ L.MAXIMUM_STREAM_PKTS then
        (RNP_SUCCESS, ⟨m, p, g, l, s + n, 0⟩, rep_out (lit_out p) n)
      else
        (RNP_SUCCESS, ⟨m, p, g, l, L.MAXIMUM_STREAM_PKTS + 1, 0⟩,
         rep_out (lit_out p) (L.MAXIMUM_STREAM_PKTS + 1 - s) ++
           [DField.note ":too many OpenPGP stream packets, stopping."])) := by
  intro n
  induction n with
  | zero =>
    intro s hs
    simp [rep_stream, rep_out, stream_dump_packets_raw_loop, hs]
  | succ n ih =>
    intro s hs
    rw [rep_stream, lit_step_text, finish_ok]
    by_cases hstop : L.MAXIMUM_STREAM_PKTS < s + 1
    · have hcond : ¬ (s + (n + 1) ≤ L.MAXIMUM_STREAM_PKTS) := by omega
      have hsub : L.MAXIMUM_STREAM_PKTS + 1 - s = 1 := by omega
      have hs1 : s = L.MAXIMUM_STREAM_PKTS := by omega
      simp [hstop, hcond, hsub, rep_out, hs1]
    · have hstep : s + 1 ≤ L.MAXIMUM_STREAM_PKTS := by omega
      have hrec := ih (s + 1) hstep
      rw [if_neg hstop, hrec]
      by_cases hcond : s + 1 + n ≤ L.MAXIMUM_STREAM_PKTS
      · have hcond' : s + (n + 1) ≤ L.MAXIMUM_STREAM_PKTS := by omega
        have harith : s + 1 + n = s + (n + 1) := by omega
        simp [hcond, hcond', rep_out, harith]
      · have hcond' : ¬ (s + (n + 1) ≤ L.MAXIMUM_STREAM_PKTS) := by omega
        have hsub : L.MAXIMUM_STREAM_PKTS + 1 - s =
            (L.MAXIMUM_STREAM_PKTS + 1 - (s + 1)) + 1 := by omega
        simp [hcond, hcond', hsub, rep_out]

/-- Walking `n` literal packets from stream count `s` (JSON): as in
the text path — the threshold packet is included in the array — but no
diagnostic note is emitted. -/
theorem lit_loop_json (L : Limits) (m p g : Bool) (l : Nat) :
    ∀ n s, s ≤ L.MAXIMUM_STREAM_PKTS →
    stream_dump_raw_packets_json_loop L
      ⟨m, p, g, l, s, 0⟩ (rep_stream lit_pkt n) =
      (if s + n ≤ L.MAXIMUM_STREAM_PKTS then
        (RNP_SUCCESS, ⟨m, p, g, l, s + n, 0⟩, rep_out (lit_out_json p) n)
      else
        (RNP_SUCCESS, ⟨m, p, g, l, L.MAXIMUM_STREAM_PKTS + 1, 0⟩,
         rep_out (lit_out_json p) (L.MAXIMUM_STREAM_PKTS + 1 - s))) := by
  intro n
  induction n with
  | zero =>
    intro s hs
    simp [rep_stream, rep_out, stream_dump_raw_packets_json_loop, hs]
  | succ n ih =>
    intro s hs
    rw [rep_stream, lit_step_json, finish_ok_json]
    by_cases hstop : L.MAXIMUM_STREAM_PKTS < s + 1
    · have hcond : ¬ (s + (n + 1) ≤ L.MAXIMUM_STREAM_PKTS) := by omega
      have hsub : L.MAXIMUM_STREAM_PKTS + 1 - s = 1 := by omega
      have hs1 : s = L.MAXIMUM_STREAM_PKTS := by omega
      simp [hstop, hcond, hsub, rep_out, hs1]
    · have hstep : s + 1 ≤ L.MAXIMUM_STREAM_PKTS := by omega
      have hrec := ih (s + 1) hstep
      rw [if_neg hstop, hrec]
      by_cases hcond : s + 1 + n ≤ L.MAXIMUM_STREAM_PKTS
      · have hcond' : s + (n + 1) ≤ L.MAXIMUM_STREAM_PKTS := by omega
        have harith : s + 1 + n = s + (n + 1) := by omega
        simp [hcond, hcond', rep_out, harith]
      · have hcond' : ¬ (s + (n + 1) ≤ L.MAXIMUM_STREAM_PKTS) := by omega
        have hsub : L.MAXIMUM_STREAM_PKTS + 1 - s =
            (L.MAXIMUM_STREAM_PKTS + 1 - (s + 1)) + 1 := by omega
        simp [hcond, hcond', hsub, rep_out]

/-- Small limits (`MAXIMUM_STREAM_PKTS = 1`) for the stream-threshold
counterexample. -/
def L_stream1 : Limits :=
  { MAXIMUM_NESTING_LEVEL := 4, MAXIMUM_STREAM_PKTS := 1,
    MAXIMUM_ERROR_PKTS := 4 }

/-- C5: the claim states the partial output contains exactly the
packets processed before the stream threshold was exceeded.  With
`MAXIMUM_STREAM_PKTS = 1` and three literal packets, the counter
exceeds the threshold while the second packet is being processed —
only one packet was processed before that — yet the output contains
two full packet records (the walk dumps the threshold-exceeding packet
before stopping). -/
theorem C5_stream_threshold_counterexample :
    (stream_dump_packets_raw L_stream1 (mk_ctx false false false)
      (rep_stream lit_pkt 3)).1 = RNP_SUCCESS ∧
    count_hdrs (stream_dump_packets_raw L_stream1 (mk_ctx false false false)
      (rep_stream lit_pkt 3)).2.2 = 2 ∧
    ¬ count_hdrs (stream_dump_packets_raw L_stream1 (mk_ctx false false false)
      (rep_stream lit_pkt 3)).2.2 = 1 := by
  have h : stream_dump_packets_raw L_stream1 (mk_ctx false false false)
      (rep_stream lit_pkt 3) =
      (RNP_SUCCESS, ⟨false, false, false, 1, 2, 0⟩,
       rep_out (lit_out false) 2 ++
         [DField.note ":too many OpenPGP stream packets, stopping."]) := by
    rw [rep_stream]
    simp only [stream_dump_packets_raw, mk_ctx, L_stream1]
    rw [if_neg (by decide)]
    have := lit_loop_text L_stream1 false false false 1 3 0 (by decide)
    rw [rep_stream] at this
    simp only [L_stream1] at this
    simpa using this
  rw [h]
  refine ⟨rfl, by decide, by decide⟩

/-- C5 (amended): an input with more than `MAXIMUM_STREAM_PKTS` stream
packets halts the walk early with a successful result; the partial
output contains exactly the packets up to and including the one whose
processing pushed the counter over the threshold —
`MAXIMUM_STREAM_PKTS + 1` of them — followed, in the text path only,
by the diagnostic note (the JSON path stops silently after appending
that packet). -/
theorem C5_stream_threshold (L : Limits) (m p g : Bool) (n : Nat)
    (hnest : 1 ≤ L.MAXIMUM_NESTING_LEVEL)
    (hn : L.MAXIMUM_STREAM_PKTS < n) :
    stream_dump_packets_raw L (mk_ctx m p g) (rep_stream lit_pkt n) =
      (RNP_SUCCESS, ⟨m, p, g, 1, L.MAXIMUM_STREAM_PKTS + 1, 0⟩,
       rep_out (lit_out p) (L.MAXIMUM_STREAM_PKTS + 1) ++
         [DField.note ":too many OpenPGP stream packets, stopping."]) ∧
    stream_dump_raw_packets_json L (mk_ctx m p g) (rep_stream lit_pkt n) =
      (RNP_SUCCESS, ⟨m, p, g, 1, L.MAXIMUM_STREAM_PKTS + 1, 0⟩,
       rep_out (lit_out_json p) (L.MAXIMUM_STREAM_PKTS + 1)) := by
  have hguard : ¬ (L.MAXIMUM_NESTING_LEVEL < 0 + 1) := by omega
  obtain ⟨k, rfl⟩ : ∃ k, n = k + 1 := ⟨n - 1, by omega⟩
  have hcond : ¬ (0 + (k + 1) ≤ L.MAXIMUM_STREAM_PKTS) := by omega
  constructor
  · rw [rep_stream]
    simp only [stream_dump_packets_raw, mk_ctx]
    rw [if_neg hguard]
    have := lit_loop_text L m p g 1 (k + 1) 0 (by omega)
    rw [rep_stream, if_neg hcond] at this
    simpa using this
  · rw [rep_stream]
    simp only [stream_dump_raw_packets_json, mk_ctx]
    rw [if_neg hguard]
    have := lit_loop_json L m p g 1 (k + 1) 0 (by omega)
    rw [rep_stream, if_neg hcond] at this
    simpa using this

/-- C5 witness: the amended statement at `MAXIMUM_STREAM_PKTS = 1`
with three literal packets. -/
theorem C5_stream_threshold_witness :
    stream_dump_packets_raw L_stream1 (mk_ctx false false false)
      (rep_stream lit_pkt 3) =
      (RNP_SUCCESS, ⟨false, false, false, 1,
         L_stream1.MAXIMUM_STREAM_PKTS + 1, 0⟩,
       rep_out (lit_out false) (L_stream1.MAXIMUM_STREAM_PKTS + 1) ++
         [DField.note ":too many OpenPGP stream packets, stopping."]) ∧
    stream_dump_raw_packets_json L_stream1 (mk_ctx false false false)
      (rep_stream lit_pkt 3) =
      (RNP_SUCCESS, ⟨false, false, false, 1,
         L_stream1.MAXIMUM_STREAM_PKTS + 1, 0⟩,
       rep_out (lit_out_json false) (L_stream1.MAXIMUM_STREAM_PKTS + 1)) :=
  C5_stream_threshold L_stream1 false false false 3 (by decide) (by decide)

/-- A compressed-data packet (tag 8, ZIP) wrapping the given stream. -/
def zip_wrap (inner : PacketList) : pgp_packet_t :=
  .mk 0 { tag := 8, hdr := [200, 0], hdr_len := 2, pkt_len := 0,
          isPart := false, indeterminate := true } [] (.zipB 1 inner)

/-- A chain of `d` nested compressed packets around one marker. -/
def zip_chain : Nat → PacketList
  | 0 => .cons marker_pkt .nil
  | d + 1 => .cons (zip_wrap (zip_chain d)) .nil

/-- The text fields one compressed layer contributes before its
contents. -/
def zip_pre (dp : Bool) : List DField :=
  [DField.header 0 [200, 0] 8 (hdr_len_msg (zip_wrap .nil).hdr)] ++
  (if dp then [DField.rawpkt 2 []] else []) ++
  [DField.note "Compressed data packet", dst_print_zalg none 1,
   DField.note "Decompressed contents:"]

/-- The JSON fields one compressed layer contributes before its
contents array. -/
def zip_pre_json (dp : Bool) : List DField :=
  stream_dump_hdr_json 0 (zip_wrap .nil).hdr ++
  (if dp then [DField.fhex "raw" []] else []) ++
  [DField.intstr "algorithm" 1 (id_str_lookup z_alg_map 1 "Unknown"),
   DField.note "contents"]

/-- One text loop step on a compressed packet: bump the stream counter,
recurse, then run the loop tail with the recursion's result. -/
theorem zip_step_text (L : Limits) (ctx : rnp_dump_ctx_t)
    (rest inner : PacketList) :
    stream_dump_packets_raw_loop L ctx (.cons (zip_wrap inner) rest) =
      stream_dump_packets_raw_finish L
        (stream_dump_packets_raw L
          { ctx with stream_pkts := ctx.stream_pkts + 1 } inner).2.1 rest
        (zip_pre ctx.dump_packets ++
          (stream_dump_packets_raw L
            { ctx with stream_pkts := ctx.stream_pkts + 1 } inner).2.2)
        (stream_dump_packets_raw L
          { ctx with stream_pkts := ctx.stream_pkts + 1 } inner).1 := by
  obtain ⟨m, p, g, l, s, f⟩ := ctx
  cases p <;>
    simp [stream_dump_packets_raw_loop, zip_wrap, zip_pre,
          pgp_packet_t.hdr]

/-- One JSON loop step on a compressed packet whose recursive walk
succeeds. -/
theorem zip_step_json (L : Limits) (ctx : rnp_dump_ctx_t)
    (rest inner : PacketList)
    (hok : (stream_dump_raw_packets_json L
      { ctx with stream_pkts := ctx.stream_pkts + 1 } inner).1 = RNP_SUCCESS) :
    stream_dump_raw_packets_json_loop L ctx (.cons (zip_wrap inner) rest) =
      stream_dump_raw_packets_json_finish L
        (stream_dump_raw_packets_json L
          { ctx with stream_pkts := ctx.stream_pkts + 1 } inner).2.1 rest
        (zip_pre_json ctx.dump_packets ++
          (stream_dump_raw_packets_json L
            { ctx with stream_pkts := ctx.stream_pkts + 1 } inner).2.2)
        RNP_SUCCESS := by
  obtain ⟨m, p, g, l, s, f⟩ := ctx
  cases p <;>
    simp_all [stream_dump_raw_packets_json_loop, zip_wrap, zip_pre_json,
              pgp_packet_t.hdr]

/-- Walking a compressed chain deeper than the remaining nesting
budget (text): the walk descends `MAXIMUM_NESTING_LEVEL - l` layers,
then the next layer entry trips the guard and the walk ends
successfully with the diagnostic layers note appended. -/
theorem zip_chain_text (L : Limits) (m p g : Bool) :
    ∀ d l s, l ≤ L.MAXIMUM_NESTING_LEVEL →
      L.MAXIMUM_NESTING_LEVEL < l + d →
      s + (L.MAXIMUM_NESTING_LEVEL - l) ≤ L.MAXIMUM_STREAM_PKTS →
    stream_dump_packets_raw L ⟨m, p, g, l, s, 0⟩ (zip_chain d) =
      (RNP_SUCCESS,
       ⟨m, p, g, L.MAXIMUM_NESTING_LEVEL + 1,
        s + (L.MAXIMUM_NESTING_LEVEL - l), 0⟩,
       rep_out (zip_pre p) (L.MAXIMUM_NESTING_LEVEL - l) ++
         [DField.note ":too many OpenPGP packet layers, stopping."]) := by
  intro d
  induction d with
  | zero => intro l s hl hd hs; omega
  | succ d ih =>
    intro l s hl hd hs
    by_cases hguard : L.MAXIMUM_NESTING_LEVEL < l + 1
    · have hl1 : l = L.MAXIMUM_NESTING_LEVEL := by omega
      have hsub : L.MAXIMUM_NESTING_LEVEL - l = 0 := by omega
      rw [zip_chain]
      simp only [stream_dump_packets_raw]
      rw [if_pos hguard]
      simp [hl1, hsub, rep_out]
    · rw [zip_chain]
      simp only [stream_dump_packets_raw]
      rw [if_neg hguard, zip_step_text]
      have hrec := ih (l + 1) (s + 1) (by omega) (by omega) (by omega)
      rw [hrec, finish_ok]
      have hns : ¬ (L.MAXIMUM_STREAM_PKTS <
          s + 1 + (L.MAXIMUM_NESTING_LEVEL - (l + 1))) := by omega
      rw [if_neg hns]
      have harith : s + 1 + (L.MAXIMUM_NESTING_LEVEL - (l + 1)) =
          s + (L.MAXIMUM_NESTING_LEVEL - l) := by omega
      have hsub : L.MAXIMUM_NESTING_LEVEL - l =
          (L.MAXIMUM_NESTING_LEVEL - (l + 1)) + 1 := by omega
      simp [stream_dump_packets_raw_loop, harith, hsub, rep_out]

/-- Walking a compressed chain deeper than the remaining nesting
budget (JSON): the walk descends, trips the guard, and ends
successfully — with no diagnostic note anywhere in the output. -/
theorem zip_chain_json (L : Limits) (m p g : Bool) :
    ∀ d l s, l ≤ L.MAXIMUM_NESTING_LEVEL →
      L.MAXIMUM_NESTING_LEVEL < l + d →
      s + (L.MAXIMUM_NESTING_LEVEL - l) ≤ L.MAXIMUM_STREAM_PKTS →
    stream_dump_raw_packets_json L ⟨m, p, g, l, s, 0⟩ (zip_chain d) =
      (RNP_SUCCESS,
       ⟨m, p, g, L.MAXIMUM_NESTING_LEVEL + 1,
        s + (L.MAXIMUM_NESTING_LEVEL - l), 0⟩,
       rep_out (zip_pre_json p) (L.MAXIMUM_NESTING_LEVEL - l)) := by
  intro d
  induction d with
  | zero => intro l s hl hd hs; omega
  | succ d ih =>
    intro l s hl hd hs
    by_cases hguard : L.MAXIMUM_NESTING_LEVEL < l + 1
    · have hl1 : l = L.MAXIMUM_NESTING_LEVEL := by omega
      have hsub : L.MAXIMUM_NESTING_LEVEL - l = 0 := by omega
      rw [zip_chain]
      simp only [stream_dump_raw_packets_json]
      rw [if_pos hguard]
      simp [hl1, hsub, rep_out]
    · rw [zip_chain]
      simp only [stream_dump_raw_packets_json]
      rw [if_neg hguard]
      have hrec := ih (l + 1) (s + 1) (by omega) (by omega) (by omega)
      rw [zip_step_json L (⟨m, p, g, l + 1, s, 0⟩ : rnp_dump_ctx_t) .nil
            (zip_chain d) (by rw [hrec])]
      rw [hrec, finish_ok_json]
      have hns : ¬ (L.MAXIMUM_STREAM_PKTS <
          s + 1 + (L.MAXIMUM_NESTING_LEVEL - (l + 1))) := by omega
      rw [if_neg hns]
      have harith : s + 1 + (L.MAXIMUM_NESTING_LEVEL - (l + 1)) =
          s + (L.MAXIMUM_NESTING_LEVEL - l) := by omega
      have hsub : L.MAXIMUM_NESTING_LEVEL - l =
          (L.MAXIMUM_NESTING_LEVEL - (l + 1)) + 1 := by omega
      simp [stream_dump_raw_packets_json_loop, harith, hsub, rep_out]

theorem not_mem_rep_out (x : DField) (out : List DField) (h : x ∉ out) :
    ∀ k, x ∉ rep_out out k := by
  intro k
  induction k with
  | zero => simp [rep_out]
  | succ k ih => simp [rep_out, h, ih]

/-- Small limits (`MAXIMUM_NESTING_LEVEL = 1`) for the nesting-guard
counterexample. -/
def L_nest1 : Limits :=
  { MAXIMUM_NESTING_LEVEL := 1, MAXIMUM_STREAM_PKTS := 10,
    MAXIMUM_ERROR_PKTS := 10 }

/-- C3: the claim states the nesting guard emits a diagnostic note in
the output in both paths.  In the JSON path the walk on a two-deep
compressed chain with `MAXIMUM_NESTING_LEVEL = 1` stops successfully
but its output contains no diagnostic note — the stop is reported only
to the log. -/
theorem C3_nesting_note_counterexample :
    (stream_dump_raw_packets_json L_nest1 (mk_ctx false false false)
      (zip_chain 2)).1 = RNP_SUCCESS ∧
    DField.note ":too many OpenPGP packet layers, stopping." ∉
      (stream_dump_raw_packets_json L_nest1 (mk_ctx false false false)
        (zip_chain 2)).2.2 := by
  have h := zip_chain_json L_nest1 false false false 2 0 0
    (by decide) (by decide) (by decide)
  rw [show (mk_ctx false false false) =
      (⟨false, false, false, 0, 0, 0⟩ : rnp_dump_ctx_t) from rfl, h]
  exact ⟨rfl, by decide⟩

/-- C3 (amended): a compressed chain nested deeper than
`MAXIMUM_NESTING_LEVEL` stops the recursion at the guard and the
overall walk ends successfully in both paths; the text path appends
the diagnostic note `:too many OpenPGP packet layers, stopping.` to
its output, while the JSON path emits no diagnostic note at all (the
innermost contents array is simply empty). -/
theorem C3_nesting_guard (L : Limits) (m p g : Bool) (d : Nat)
    (hd : L.MAXIMUM_NESTING_LEVEL < d)
    (hns : L.MAXIMUM_NESTING_LEVEL ≤ L.MAXIMUM_STREAM_PKTS) :
    stream_dump_packets_raw L (mk_ctx m p g) (zip_chain d) =
      (RNP_SUCCESS,
       ⟨m, p, g, L.MAXIMUM_NESTING_LEVEL + 1, L.MAXIMUM_NESTING_LEVEL, 0⟩,
       rep_out (zip_pre p) L.MAXIMUM_NESTING_LEVEL ++
         [DField.note ":too many OpenPGP packet layers, stopping."]) ∧
    DField.note ":too many OpenPGP packet layers, stopping." ∈
      (stream_dump_packets_raw L (mk_ctx m p g) (zip_chain d)).2.2 ∧
    stream_dump_raw_packets_json L (mk_ctx m p g) (zip_chain d) =
      (RNP_SUCCESS,
       ⟨m, p, g, L.MAXIMUM_NESTING_LEVEL + 1, L.MAXIMUM_NESTING_LEVEL, 0⟩,
       rep_out (zip_pre_json p) L.MAXIMUM_NESTING_LEVEL) ∧
    DField.note ":too many OpenPGP packet layers, stopping." ∉
      (stream_dump_raw_packets_json L (mk_ctx m p g) (zip_chain d)).2.2 := by
  have ht := zip_chain_text L m p g d 0 0 (by omega) (by omega) (by omega)
  have hj := zip_chain_json L m p g d 0 0 (by omega) (by omega) (by omega)
  simp only [Nat.zero_add, Nat.sub_zero] at ht hj
  rw [show (mk_ctx m p g) = (⟨m, p, g, 0, 0, 0⟩ : rnp_dump_ctx_t) from rfl]
  refine ⟨ht, ?_, hj, ?_⟩
  · rw [ht]; simp
  · rw [hj]
    refine not_mem_rep_out _ _ ?_ _
    cases p <;> decide

/-- C3 witness: the amended statement at `MAXIMUM_NESTING_LEVEL = 1`
with a two-deep chain. -/
theorem C3_nesting_guard_witness :
    stream_dump_packets_raw L_nest1 (mk_ctx false false false) (zip_chain 2) =
      (RNP_SUCCESS,
       ⟨false, false, false, L_nest1.MAXIMUM_NESTING_LEVEL + 1,
        L_nest1.MAXIMUM_NESTING_LEVEL, 0⟩,
       rep_out (zip_pre false) L_nest1.MAXIMUM_NESTING_LEVEL ++
         [DField.note ":too many OpenPGP packet layers, stopping."]) ∧
    DField.note ":too many OpenPGP packet layers, stopping." ∈
      (stream_dump_packets_raw L_nest1 (mk_ctx false false false)
        (zip_chain 2)).2.2 ∧
    stream_dump_raw_packets_json L_nest1 (mk_ctx false false false)
      (zip_chain 2) =
      (RNP_SUCCESS,
       ⟨false, false, false, L_nest1.MAXIMUM_NESTING_LEVEL + 1,
        L_nest1.MAXIMUM_NESTING_LEVEL, 0⟩,
       rep_out (zip_pre_json false) L_nest1.MAXIMUM_NESTING_LEVEL) ∧
    DField.note ":too many OpenPGP packet layers, stopping." ∉
      (stream_dump_raw_packets_json L_nest1 (mk_ctx false false false)
        (zip_chain 2)).2.2 :=
  C3_nesting_guard L_nest1 false false false 2 (by decide) (by decide)
